import Mathlib

/-! MINI-UPS: HID Power Device report model

A shallow embedding of `main/tusb_hid_example_main.c`: the power-state globals, the
static HID report descriptor, the Get-Report callback and the simulation step, together
with the properties of the report model that are established about them.

Machine integers are natural numbers or integers with the wrap-around of their C type
written out.  A `uint8_t*` buffer is a map from offsets to bytes.
-/

namespace MiniUPS

/-! ## Report IDs and string indices (the `#define`s of the source) -/

def HID_PD_IPRODUCT : Nat := 0x01
def HID_PD_SERIAL : Nat := 0x02
def HID_PD_MANUFACTURER : Nat := 0x03
def HID_PD_RECHARGEABLE : Nat := 0x06
def HID_PD_PRESENTSTATUS : Nat := 0x07
def HID_PD_REMAINTIMELIMIT : Nat := 0x08
def HID_PD_MANUFACTUREDATE : Nat := 0x09
def HID_PD_CONFIGVOLTAGE : Nat := 0x0A
def HID_PD_VOLTAGE : Nat := 0x0B
def HID_PD_REMAININGCAPACITY : Nat := 0x0C
def HID_PD_RUNTIMETOEMPTY : Nat := 0x0D
def HID_PD_FULLCHARGECAPACITY : Nat := 0x0E
def HID_PD_WARNCAPACITYLIMIT : Nat := 0x0F
def HID_PD_CPCTYGRANULARITY1 : Nat := 0x10
def HID_PD_REMNCAPACITYLIMIT : Nat := 0x11
def HID_PD_DELAYBE4SHUTDOWN : Nat := 0x12
def HID_PD_DELAYBE4REBOOT : Nat := 0x13
def HID_PD_AUDIBLEALARMCTRL : Nat := 0x14
def HID_PD_CURRENT : Nat := 0x15
def HID_PD_CAPACITYMODE : Nat := 0x16
def HID_PD_DESIGNCAPACITY : Nat := 0x17
def HID_PD_CPCTYGRANULARITY2 : Nat := 0x18
def HID_PD_AVERAGETIME2FULL : Nat := 0x1A
def HID_PD_AVERAGECURRENT : Nat := 0x1B
def HID_PD_AVERAGETIME2EMPTY : Nat := 0x1C
def HID_PD_IDEVICECHEMISTRY : Nat := 0x1F
def HID_PD_IOEMINFORMATION : Nat := 0x20

def IMANUFACTURER : Nat := 0x01
def IPRODUCT : Nat := 0x02
def ISERIAL : Nat := 0x03
def IDEVICECHEMISTRY : Nat := 0x04
def IOEMVENDOR : Nat := 0x05

/-! ## The power state -/

/-- The `struct PresentStatus` bit-fields, one `Bool` per one-bit member, in declaration
order. -/
structure PresentStatus where
  Charging : Bool
  Discharging : Bool
  ACPresent : Bool
  BatteryPresent : Bool
  BelowRemainingCapacityLimit : Bool
  RemainingTimeLimitExpired : Bool
  NeedReplacement : Bool
  VoltageNotRegulated : Bool
  FullyCharged : Bool
  FullyDischarged : Bool
  ShutdownRequested : Bool
  ShutdownImminent : Bool
  CommunicationLost : Bool
  Overload : Bool
  unused1 : Bool
  unused2 : Bool
deriving DecidableEq, Repr

/-- The members of `struct PresentStatus` as a list, in declaration order. -/
def PresentStatus.members (ps : PresentStatus) : List Bool :=
  [ps.Charging, ps.Discharging, ps.ACPresent, ps.BatteryPresent,
   ps.BelowRemainingCapacityLimit, ps.RemainingTimeLimitExpired, ps.NeedReplacement,
   ps.VoltageNotRegulated, ps.FullyCharged, ps.FullyDischarged, ps.ShutdownRequested,
   ps.ShutdownImminent, ps.CommunicationLost, ps.Overload, ps.unused1, ps.unused2]

/-- Value of a run of one-bit fields packed from the least significant bit upwards. -/
def packBits : List Bool → Nat
  | [] => 0
  | b :: bs => b.toNat + 2 * packBits bs

/-- The storage of a `struct PresentStatus` as bytes.  The members are `uint8_t` bit-fields
of width 1; the compiler of the target (GCC, little-endian) fills each `uint8_t` unit from
its least significant bit, eight members per unit, which is the numbering the comments of
the struct record (`bit 0x00` .. `bit 0x0D`). -/
def PresentStatus.storage (ps : PresentStatus) : List Nat :=
  [packBits (ps.members.take 8), packBits ((ps.members.drop 8).take 8)]

/-- Little-endian load of a 16-bit unsigned integer from two bytes. -/
def load_uint16 (bytes : List Nat) : Nat :=
  bytes.getD 0 0 + 256 * bytes.getD 1 0

/-- The C function `PresentStatus_to_uint16`: `*(const uint16_t*)(ps)`. -/
def PresentStatus_to_uint16 (ps : PresentStatus) : Nat :=
  load_uint16 ps.storage

/-- All mutable globals of the program: `UPS`, the numeric fields, and the function-local
`static uint32_t ac_timer` of `update_ups_state`. -/
structure UpsState where
  UPS : PresentStatus
  /-- Field of C type `uint16_t`. -/
  manufacture_date : Nat
  /-- Field of C type `uint16_t`. -/
  config_voltage : Nat
  /-- Field of C type `uint16_t`. -/
  voltage : Nat
  /-- Field of C type `uint8_t`. -/
  remaining_capacity : Nat
  /-- Field of C type `uint16_t`. -/
  runtime_to_empty : Nat
  /-- Field of C type `uint16_t`. -/
  full_charge_capacity : Nat
  /-- Field of C type `uint8_t`. -/
  warring_capacity_limit : Nat
  /-- Field of C type `uint8_t`. -/
  remaining_capacity_limit : Nat
  /-- Field of C type `int16_t`. -/
  delay_before_shutdown : Int
  /-- Field of C type `int16_t`. -/
  delay_before_reboot : Int
  /-- Field of C type `uint16_t`. -/
  design_capacity : Nat
  /-- Field of C type `uint16_t`. -/
  avg_time_to_full : Nat
  /-- Field of C type `uint16_t`. -/
  avg_time_to_empty : Nat
  /-- Field of C type `uint32_t`. -/
  ac_timer : Nat
deriving DecidableEq, Repr

/-- Every field holds a value of its C type. -/
def UpsState.InRange (s : UpsState) : Prop :=
  s.manufacture_date < 65536 ∧ s.config_voltage < 65536 ∧ s.voltage < 65536 ∧
  s.remaining_capacity < 256 ∧ s.runtime_to_empty < 65536 ∧
  s.full_charge_capacity < 65536 ∧ s.warring_capacity_limit < 256 ∧
  s.remaining_capacity_limit < 256 ∧
  (-32768 ≤ s.delay_before_shutdown ∧ s.delay_before_shutdown ≤ 32767) ∧
  (-32768 ≤ s.delay_before_reboot ∧ s.delay_before_reboot ≤ 32767) ∧
  s.design_capacity < 65536 ∧ s.avg_time_to_full < 65536 ∧
  s.avg_time_to_empty < 65536 ∧ s.ac_timer < 4294967296

instance (s : UpsState) : Decidable s.InRange := by
  unfold UpsState.InRange; infer_instance

/-- The start-up values of the globals. -/
def initialState : UpsState where
  UPS :=
    { Charging := true, Discharging := false, ACPresent := true, BatteryPresent := true,
      BelowRemainingCapacityLimit := false, RemainingTimeLimitExpired := false,
      NeedReplacement := false, VoltageNotRegulated := false, FullyCharged := false,
      FullyDischarged := false, ShutdownRequested := false, ShutdownImminent := false,
      CommunicationLost := false, Overload := false, unused1 := false, unused2 := false }
  manufacture_date := 12345
  config_voltage := 12000
  voltage := 11850
  remaining_capacity := 60
  runtime_to_empty := 3600
  full_charge_capacity := 10000
  warring_capacity_limit := 20
  remaining_capacity_limit := 10
  delay_before_shutdown := 300
  delay_before_reboot := 60
  design_capacity := 100
  avg_time_to_full := 7200
  avg_time_to_empty := 14400
  ac_timer := 0

/-! ## Get-Report -/

/-- The `hid_report_type_t` enumeration of the USB stack (`FEATURE` is type 3). -/
inductive hid_report_type_t where
  | HID_REPORT_TYPE_INVALID
  | HID_REPORT_TYPE_INPUT
  | HID_REPORT_TYPE_OUTPUT
  | HID_REPORT_TYPE_FEATURE
deriving DecidableEq, Repr

open hid_report_type_t

/-- A `uint8_t*` buffer: the byte at each offset from the pointer. -/
abbrev Buffer := Nat → Nat

/-- The bit pattern of a C `int` (32 bits, two-complement).  On such a value `>>` is
the arithmetic shift `Int.shiftRight`. -/
def int_bits (x : Int) : Nat := (x % 4294967296).toNat

/-- What one call of the callback does: the value it returns and the byte stores
`buffer[i] = v` it performs, in program order. -/
structure GetReport where
  ret : Nat
  stores : List (Nat × Nat)
deriving DecidableEq, Repr

/-- The branch `if (reqlen >= n) { stores; return n; } break;` of the switch, followed by
the `return 0` after the switch. -/
def serve (reqlen n : Nat) (stores : List (Nat × Nat)) : GetReport :=
  if reqlen ≥ n then ⟨n, stores⟩ else ⟨0, []⟩

/-- The stores of `memcpy(buffer, src, n)` for a source given as its bytes. -/
def memcpy_stores (src : List Nat) (n : Nat) : List (Nat × Nat) :=
  (List.range n).map fun i => (i, src.getD i 0)

/-- The callback `tud_hid_get_report_cb`, as the returned length and the stores made. -/
def tud_hid_get_report_run (s : UpsState) (report_id : Nat)
    (report_type : hid_report_type_t) (reqlen : Nat) : GetReport :=
  if report_type ≠ HID_REPORT_TYPE_FEATURE then ⟨0, []⟩
  else if report_id = HID_PD_IPRODUCT then serve reqlen 1 [(0, IPRODUCT)]
  else if report_id = HID_PD_SERIAL then serve reqlen 1 [(0, ISERIAL)]
  else if report_id = HID_PD_MANUFACTURER then serve reqlen 1 [(0, IMANUFACTURER)]
  else if report_id = HID_PD_RECHARGEABLE then serve reqlen 1 [(0, 0x01)]
  else if report_id = HID_PD_PRESENTSTATUS then
    serve reqlen 2 (memcpy_stores s.UPS.storage 2)
  else if report_id = HID_PD_MANUFACTUREDATE then
    serve reqlen 2 [(0, s.manufacture_date &&& 0xFF), (1, (s.manufacture_date >>> 8) &&& 0xFF)]
  else if report_id = HID_PD_CONFIGVOLTAGE then
    serve reqlen 2 [(0, s.config_voltage &&& 0xFF), (1, (s.config_voltage >>> 8) &&& 0xFF)]
  else if report_id = HID_PD_VOLTAGE then
    serve reqlen 2 [(0, s.voltage &&& 0xFF), (1, (s.voltage >>> 8) &&& 0xFF)]
  else if report_id = HID_PD_REMAININGCAPACITY then
    serve reqlen 1 [(0, s.remaining_capacity % 256)]
  else if report_id = HID_PD_RUNTIMETOEMPTY then
    serve reqlen 2 [(0, s.runtime_to_empty &&& 0xFF), (1, (s.runtime_to_empty >>> 8) &&& 0xFF)]
  else if report_id = HID_PD_FULLCHARGECAPACITY then
    serve reqlen 2
      [(0, s.full_charge_capacity &&& 0xFF), (1, (s.full_charge_capacity >>> 8) &&& 0xFF)]
  else if report_id = HID_PD_WARNCAPACITYLIMIT then serve reqlen 1 [(0, 20)]
  else if report_id = HID_PD_CPCTYGRANULARITY1 then serve reqlen 1 [(0, 1)]
  else if report_id = HID_PD_REMNCAPACITYLIMIT then serve reqlen 1 [(0, 10)]
  else if report_id = HID_PD_DELAYBE4SHUTDOWN then
    serve reqlen 2
      [(0, int_bits s.delay_before_shutdown &&& 0xFF),
       (1, int_bits (s.delay_before_shutdown >>> (8 : Nat)) &&& 0xFF)]
  else if report_id = HID_PD_DELAYBE4REBOOT then
    serve reqlen 2
      [(0, int_bits s.delay_before_reboot &&& 0xFF),
       (1, int_bits (s.delay_before_reboot >>> (8 : Nat)) &&& 0xFF)]
  else if report_id = HID_PD_AUDIBLEALARMCTRL then serve reqlen 1 [(0, 2)]
  else if report_id = HID_PD_CAPACITYMODE then serve reqlen 1 [(0, 0x01)]
  else if report_id = HID_PD_DESIGNCAPACITY then serve reqlen 1 [(0, s.design_capacity % 256)]
  else if report_id = HID_PD_CPCTYGRANULARITY2 then serve reqlen 1 [(0, 0x00)]
  else if report_id = HID_PD_AVERAGETIME2FULL then
    serve reqlen 2 [(0, s.avg_time_to_full &&& 0xFF), (1, (s.avg_time_to_full >>> 8) &&& 0xFF)]
  else if report_id = HID_PD_AVERAGETIME2EMPTY then
    serve reqlen 2 [(0, s.avg_time_to_empty &&& 0xFF), (1, (s.avg_time_to_empty >>> 8) &&& 0xFF)]
  else if report_id = HID_PD_IDEVICECHEMISTRY then serve reqlen 1 [(0, IDEVICECHEMISTRY)]
  else if report_id = HID_PD_IOEMINFORMATION then serve reqlen 1 [(0, IOEMVENDOR)]
  else ⟨0, []⟩

/-- The buffer after the store `buffer[i] = v`. -/
def store (buffer : Buffer) (i v : Nat) : Buffer :=
  fun j => if j = i then v else buffer j

/-- The buffer after a sequence of stores. -/
def storeAll (buffer : Buffer) : List (Nat × Nat) → Buffer
  | [] => buffer
  | (i, v) :: rest => storeAll (store buffer i v) rest

/-- The callback `tud_hid_get_report_cb`: the returned length and the buffer it leaves. -/
def tud_hid_get_report_cb (s : UpsState) (report_id : Nat)
    (report_type : hid_report_type_t) (buffer : Buffer) (reqlen : Nat) : Nat × Buffer :=
  let r := tud_hid_get_report_run s report_id report_type reqlen
  (r.ret, storeAll buffer r.stores)

/-- The Report IDs that have a `case` in the switch of `tud_hid_get_report_cb`. -/
def handledIds : List Nat :=
  [HID_PD_IPRODUCT, HID_PD_SERIAL, HID_PD_MANUFACTURER, HID_PD_RECHARGEABLE,
   HID_PD_PRESENTSTATUS, HID_PD_MANUFACTUREDATE, HID_PD_CONFIGVOLTAGE, HID_PD_VOLTAGE,
   HID_PD_REMAININGCAPACITY, HID_PD_RUNTIMETOEMPTY, HID_PD_FULLCHARGECAPACITY,
   HID_PD_WARNCAPACITYLIMIT, HID_PD_CPCTYGRANULARITY1, HID_PD_REMNCAPACITYLIMIT,
   HID_PD_DELAYBE4SHUTDOWN, HID_PD_DELAYBE4REBOOT, HID_PD_AUDIBLEALARMCTRL,
   HID_PD_CAPACITYMODE, HID_PD_DESIGNCAPACITY, HID_PD_CPCTYGRANULARITY2,
   HID_PD_AVERAGETIME2FULL, HID_PD_AVERAGETIME2EMPTY, HID_PD_IDEVICECHEMISTRY,
   HID_PD_IOEMINFORMATION]

/-! ## The report descriptor -/

/-- The array `hid_report_descriptor`, item by item in source order. -/
def hid_report_descriptor : List Nat :=
  [
   0x05, 0x84,  0x09, 0x04,  0xA1, 0x01,  0x09, 0x24,
   0xA1, 0x02,  0x75, 0x08,  0x95, 0x01,  0x15, 0x00,
   0x26, 0xFF, 0x00,  0x85, HID_PD_IPRODUCT,  0x09, 0xFE,  0x79, IPRODUCT,
   0xB1, 0x23,  0x85, HID_PD_SERIAL,  0x09, 0xFF,  0x79, ISERIAL,
   0xB1, 0x23,  0x85, HID_PD_MANUFACTURER,  0x09, 0xFD,  0x79, IMANUFACTURER,
   0xB1, 0x23,  0x05, 0x85,  0x85, HID_PD_RECHARGEABLE,  0x09, 0x8B,
   0xB1, 0x23,  0x85, HID_PD_IDEVICECHEMISTRY,  0x09, 0x89,  0x79, IDEVICECHEMISTRY,
   0xB1, 0x23,  0x85, HID_PD_IOEMINFORMATION,  0x09, 0x8F,  0x79, IOEMVENDOR,
   0xB1, 0x23,  0x85, HID_PD_CAPACITYMODE,  0x09, 0x2C,  0xB1, 0x23,
   0x85, HID_PD_CPCTYGRANULARITY1,  0x09, 0x8D,  0x26, 0x64, 0x00,  0xB1, 0x22,
   0x85, HID_PD_CPCTYGRANULARITY2,  0x09, 0x8E,  0xB1, 0x23,  0x85, HID_PD_FULLCHARGECAPACITY,
   0x09, 0x67,  0xB1, 0x83,  0x85, HID_PD_DESIGNCAPACITY,  0x09, 0x83,
   0xB1, 0x83,  0x85, HID_PD_REMAININGCAPACITY,  0x09, 0x66,  0x81, 0xA3,
   0x09, 0x66,  0xB1, 0xA3,  0x85, HID_PD_WARNCAPACITYLIMIT,  0x09, 0x8C,
   0xB1, 0xA2,  0x85, HID_PD_REMNCAPACITYLIMIT,  0x09, 0x29,  0xB1, 0xA2,
   0x85, HID_PD_MANUFACTUREDATE,  0x09, 0x85,  0x75, 0x10,  0x27, 0xFF, 0xFF, 0x00, 0x00,
   0xB1, 0xA3,  0x85, HID_PD_AVERAGETIME2FULL,  0x09, 0x6A,  0x27, 0xFF, 0xFF, 0x00, 0x00,
   0x66, 0x01, 0x10,  0x55, 0x00,  0xB1, 0xA3,  0x85, HID_PD_AVERAGETIME2EMPTY,
   0x09, 0x69,  0x81, 0xA3,  0x09, 0x69,  0xB1, 0xA3,
   0x85, HID_PD_RUNTIMETOEMPTY,  0x09, 0x68,  0x81, 0xA3,  0x09, 0x68,
   0xB1, 0xA3,  0x85, HID_PD_REMAINTIMELIMIT,  0x09, 0x2A,  0x75, 0x10,
   0x27, 0x64, 0x05, 0x00, 0x00,  0x16, 0x78, 0x00,  0x81, 0x22,  0x09, 0x2A,
   0xB1, 0xA2,  0x05, 0x84,  0x85, HID_PD_DELAYBE4SHUTDOWN,  0x09, 0x57,
   0x16, 0x00, 0x80,  0x27, 0xFF, 0x7F, 0x00, 0x00,  0xB1, 0xA2,  0x85, HID_PD_DELAYBE4REBOOT,
   0x09, 0x55,  0xB1, 0xA2,  0x85, HID_PD_CONFIGVOLTAGE,  0x09, 0x40,
   0x15, 0x00,  0x27, 0xFF, 0xFF, 0x00, 0x00,  0x67, 0x21, 0xD1, 0xF0, 0x00,  0x55, 0x05,
   0xB1, 0x23,  0x85, HID_PD_VOLTAGE,  0x09, 0x30,  0x81, 0xA3,
   0x09, 0x30,  0xB1, 0xA3,  0x85, HID_PD_AUDIBLEALARMCTRL,  0x09, 0x5A,
   0x75, 0x08,  0x15, 0x01,  0x25, 0x03,  0x65, 0x00,
   0x55, 0x00,  0x81, 0x22,  0x09, 0x5A,  0xB1, 0xA2,
   0x09, 0x02,  0xA1, 0x02,  0x85, HID_PD_PRESENTSTATUS,  0x05, 0x85,
   0x75, 0x01,  0x15, 0x00,  0x25, 0x01,  0x09, 0x44,
   0x81, 0xA3,  0x09, 0x44,  0xB1, 0xA3,  0x09, 0x45,
   0x81, 0xA3,  0x09, 0x45,  0xB1, 0xA3,  0x09, 0xD0,
   0x81, 0xA3,  0x09, 0xD0,  0xB1, 0xA3,  0x09, 0xD1,
   0x81, 0xA3,  0x09, 0xD1,  0xB1, 0xA3,  0x09, 0x42,
   0x81, 0xA3,  0x09, 0x42,  0xB1, 0xA3,  0x09, 0x43,
   0x81, 0xA2,  0x09, 0x43,  0xB1, 0xA2,  0x09, 0x4B,
   0x81, 0xA3,  0x09, 0x4B,  0xB1, 0xA3,  0x09, 0xDB,
   0x81, 0xA3,  0x09, 0xDB,  0xB1, 0xA3,  0x09, 0x46,
   0x81, 0xA3,  0x09, 0x46,  0xB1, 0xA3,  0x09, 0x47,
   0x81, 0xA3,  0x09, 0x47,  0xB1, 0xA3,  0x05, 0x84,
   0x09, 0x68,  0x81, 0xA2,  0x09, 0x68,  0xB1, 0xA2,
   0x09, 0x69,  0x81, 0xA3,  0x09, 0x69,  0xB1, 0xA3,
   0x09, 0x73,  0x81, 0xA3,  0x09, 0x73,  0xB1, 0xA3,
   0x09, 0x65,  0x81, 0xA3,  0x09, 0x65,  0xB1, 0xA3,
   0x95, 0x02,  0x81, 0x01,  0xB1, 0x01,  0xC0,
   0xC0,  0xC0
  ]

/-- One short item of a report descriptor: the tag and type of its prefix byte and its
data bytes. -/
structure Item where
  bTag : Nat
  bType : Nat
  data : List Nat
deriving DecidableEq, Repr

/-- Number of data bytes a prefix announces in its two low bits (0, 1, 2 or 4). -/
def dataLength (bSize : Nat) : Nat := if bSize = 3 then 4 else bSize

/-- Reader of the byte stream: the items completed so far, and the item being read as its
prefix byte, the number of data bytes still missing, and the data bytes seen. -/
structure Lexer where
  items : List Item
  pending : Option (Nat × Nat)
  data : List Nat
deriving DecidableEq, Repr

/-- Consume one byte of the descriptor. -/
def Lexer.step (lx : Lexer) (b : Nat) : Lexer :=
  match lx.pending with
  | none =>
    if dataLength (b % 4) = 0 then
      { lx with items := lx.items ++ [⟨b / 16, b / 4 % 4, []⟩] }
    else { lx with pending := some (b, dataLength (b % 4)), data := [] }
  | some (p, n) =>
    if n ≤ 1 then
      { items := lx.items ++ [⟨p / 16, p / 4 % 4, lx.data ++ [b]⟩], pending := none, data := [] }
    else { lx with pending := some (p, n - 1), data := lx.data ++ [b] }

/-- The short items of a byte stream, or `none` when the last item runs past the end. -/
def shortItems (bytes : List Nat) : Option (List Item) :=
  let lx := bytes.foldl Lexer.step ⟨[], none, []⟩
  if lx.pending.isNone then some lx.items else none

/-- Unsigned little-endian value of the data bytes of an item. -/
def unsignedValue : List Nat → Nat
  | [] => 0
  | b :: bs => b + 256 * unsignedValue bs

/-- Signed (two-complement) little-endian value of the data bytes of an item. -/
def signedValue (data : List Nat) : Int :=
  if 2 * unsignedValue data ≥ 256 ^ data.length ∧ data ≠ [] then
    (unsignedValue data : Int) - (256 ^ data.length : Nat)
  else (unsignedValue data : Int)

/-- The main items that declare report fields. -/
inductive MainKind where
  | Input
  | Output
  | Feature
deriving DecidableEq, Repr

/-- One Input, Output or Feature main item with the global and local items in effect. -/
structure Field where
  kind : MainKind
  report_id : Option Nat
  usage_page : Nat
  usages : List Nat
  string_index : Option Nat
  report_size : Nat
  report_count : Nat
  logical_minimum : Int
  logical_maximum : Int
  flags : Nat
deriving DecidableEq, Repr

/-- State of a HID report-descriptor parser: the global item table, the local items
collected since the last main item, the collection depth, whether every End Collection so
far closed an open Collection, and the fields declared so far. -/
structure Parser where
  usage_page : Nat
  logical_minimum : Int
  logical_maximum : Int
  report_size : Nat
  report_id : Option Nat
  report_count : Nat
  usages : List Nat
  string_index : Option Nat
  depth : Nat
  balanced : Bool
  fields : List Field
deriving DecidableEq, Repr

/-- The parser before the first item. -/
def Parser.start : Parser :=
  { usage_page := 0, logical_minimum := 0, logical_maximum := 0, report_size := 0,
    report_id := none, report_count := 0, usages := [], string_index := none, depth := 0,
    balanced := true, fields := [] }

/-- A main item that declares a field: record it and clear the local items. -/
def Parser.declare (p : Parser) (kind : MainKind) (flags : Nat) : Parser :=
  { p with
    fields := p.fields ++
      [{ kind := kind, report_id := p.report_id, usage_page := p.usage_page,
         usages := p.usages, string_index := p.string_index, report_size := p.report_size,
         report_count := p.report_count, logical_minimum := p.logical_minimum,
         logical_maximum := p.logical_maximum, flags := flags }],
    usages := [], string_index := none }

/-- Process one item (HID 1.11, section 6.2.2): main items (type 0) are Input (tag 8),
Output (9), Collection (10), Feature (11), End Collection (12); global items (type 1) are
Usage Page (0), Logical Minimum (1), Logical Maximum (2), Report Size (7), Report ID (8),
Report Count (9); local items (type 2) are Usage (0) and String Index (7).  The other
items (physical range, unit, unit exponent) do not take part in the field layout. -/
def Parser.step (p : Parser) (it : Item) : Parser :=
  if it.bType = 0 then
    if it.bTag = 8 then p.declare MainKind.Input (unsignedValue it.data)
    else if it.bTag = 9 then p.declare MainKind.Output (unsignedValue it.data)
    else if it.bTag = 11 then p.declare MainKind.Feature (unsignedValue it.data)
    else if it.bTag = 10 then
      { p with depth := p.depth + 1, usages := [], string_index := none }
    else if it.bTag = 12 then
      { p with depth := p.depth - 1, balanced := p.balanced && decide (0 < p.depth),
               usages := [], string_index := none }
    else p
  else if it.bType = 1 then
    if it.bTag = 0 then { p with usage_page := unsignedValue it.data }
    else if it.bTag = 1 then { p with logical_minimum := signedValue it.data }
    else if it.bTag = 2 then { p with logical_maximum := signedValue it.data }
    else if it.bTag = 7 then { p with report_size := unsignedValue it.data }
    else if it.bTag = 8 then { p with report_id := some (unsignedValue it.data) }
    else if it.bTag = 9 then { p with report_count := unsignedValue it.data }
    else p
  else if it.bType = 2 then
    if it.bTag = 0 then { p with usages := p.usages ++ [unsignedValue it.data] }
    else if it.bTag = 7 then { p with string_index := some (unsignedValue it.data) }
    else p
  else p

/-- The parser after a whole descriptor (`none` when the byte stream is cut short). -/
def parseDescriptor (bytes : List Nat) : Option Parser :=
  (shortItems bytes).map fun items => items.foldl Parser.step Parser.start

/-- The fields a descriptor declares, in order. -/
def reportFields (bytes : List Nat) : List Field :=
  match parseDescriptor bytes with
  | some p => p.fields
  | none => []

/-- The Report IDs a descriptor declares: the values of its Report ID items, in order. -/
def declaredReportIds (bytes : List Nat) : List Nat :=
  match shortItems bytes with
  | some items =>
    (items.filter fun it => it.bType = 1 ∧ it.bTag = 8).map fun it => unsignedValue it.data
  | none => []

/-- The fields of one report: those of the given kind declared under the given Report ID. -/
def fieldsOf (bytes : List Nat) (kind : MainKind) (id : Nat) : List Field :=
  (reportFields bytes).filter fun f => f.kind = kind ∧ f.report_id = some id

/-- Width in bits of one report: the sum of REPORT_SIZE x REPORT_COUNT over its fields. -/
def reportBits (bytes : List Nat) (kind : MainKind) (id : Nat) : Nat :=
  ((fieldsOf bytes kind id).map fun f => f.report_size * f.report_count).sum


/-! ## The status flags and their usages -/

/-- The fourteen named one-bit members of `struct PresentStatus`. -/
inductive StatusFlag where
  | Charging
  | Discharging
  | ACPresent
  | BatteryPresent
  | BelowRemainingCapacityLimit
  | RemainingTimeLimitExpired
  | NeedReplacement
  | VoltageNotRegulated
  | FullyCharged
  | FullyDischarged
  | ShutdownRequested
  | ShutdownImminent
  | CommunicationLost
  | Overload
deriving DecidableEq, Repr

/-- The named members in the order `struct PresentStatus` declares them. -/
def StatusFlag.declared : List StatusFlag :=
  [.Charging, .Discharging, .ACPresent, .BatteryPresent, .BelowRemainingCapacityLimit,
   .RemainingTimeLimitExpired, .NeedReplacement, .VoltageNotRegulated, .FullyCharged,
   .FullyDischarged, .ShutdownRequested, .ShutdownImminent, .CommunicationLost, .Overload]

/-- The member of the struct a flag names. -/
def StatusFlag.read (ps : PresentStatus) : StatusFlag → Bool
  | .Charging => ps.Charging
  | .Discharging => ps.Discharging
  | .ACPresent => ps.ACPresent
  | .BatteryPresent => ps.BatteryPresent
  | .BelowRemainingCapacityLimit => ps.BelowRemainingCapacityLimit
  | .RemainingTimeLimitExpired => ps.RemainingTimeLimitExpired
  | .NeedReplacement => ps.NeedReplacement
  | .VoltageNotRegulated => ps.VoltageNotRegulated
  | .FullyCharged => ps.FullyCharged
  | .FullyDischarged => ps.FullyDischarged
  | .ShutdownRequested => ps.ShutdownRequested
  | .ShutdownImminent => ps.ShutdownImminent
  | .CommunicationLost => ps.CommunicationLost
  | .Overload => ps.Overload

/-- Usage page and usage ID of the usage that carries the name of the flag in the HID Usage
Tables for Power Devices (Battery System page 0x85, Power Device page 0x84); these are the
names the comments of the descriptor give to the codes. -/
def StatusFlag.usage : StatusFlag → Nat × Nat
  | .Charging => (0x85, 0x44)
  | .Discharging => (0x85, 0x45)
  | .ACPresent => (0x85, 0xD0)
  | .BatteryPresent => (0x85, 0xD1)
  | .BelowRemainingCapacityLimit => (0x85, 0x42)
  | .RemainingTimeLimitExpired => (0x85, 0x43)
  | .NeedReplacement => (0x85, 0x4B)
  | .VoltageNotRegulated => (0x85, 0xDB)
  | .FullyCharged => (0x85, 0x46)
  | .FullyDischarged => (0x85, 0x47)
  | .ShutdownRequested => (0x84, 0x68)
  | .ShutdownImminent => (0x84, 0x69)
  | .CommunicationLost => (0x84, 0x73)
  | .Overload => (0x84, 0x65)

/-- The 16-bit status value as the sum of `flag_i * 2^i` over the members in declaration
order (the two reserved bits included). -/
def flagSum (ps : PresentStatus) : Nat :=
  ((List.range 16).map fun i => (ps.members.getD i false).toNat * 2 ^ i).sum

/-- The layout of one report as the descriptor declares it: for each field, its bit
offset in the report, its usage page, its usages and its width in bits. -/
def layoutFrom : Nat → List Field → List (Nat × Nat × List Nat × Nat)
  | _, [] => []
  | offset, f :: fs =>
    (offset, f.usage_page, f.usages, f.report_size * f.report_count) ::
      layoutFrom (offset + f.report_size * f.report_count) fs

/-! ## The simulation step -/

/-- The first block of `update_ups_state` (AC present/absent toggle).  `dwell` is the
value of `pdMS_TO_TICKS(60000)`, `t_check` and `t_store` are what the two calls of
`xTaskGetTickCount()` return; the subtraction is that of `uint32_t`. -/
def ac_block (dwell t_check t_store : Nat) (s : UpsState) : UpsState :=
  if (t_check + 4294967296 - s.ac_timer) % 4294967296 > dwell then
    if xor s.UPS.ACPresent true = true then
      { s with
        UPS := { s.UPS with ACPresent := xor s.UPS.ACPresent true,
                            Charging := true, Discharging := false },
        ac_timer := t_store }
    else
      { s with
        UPS := { s.UPS with ACPresent := xor s.UPS.ACPresent true,
                            Charging := false, Discharging := true },
        ac_timer := t_store }
  else s

/-- The value a one-bit bit-field holds after the assignment of an integer constant. -/
def one_bit (n : Nat) : Bool := decide (n % 2 = 1)

/-- The second block of `update_ups_state` (battery capacity change); the increment and
the decrement are those of `uint8_t`. -/
def capacity_block (s : UpsState) : UpsState :=
  if s.UPS.Charging = true ∧ s.remaining_capacity < 100 then
    if (s.remaining_capacity + 1) % 256 ≥ 100 then
      { s with
        remaining_capacity := (s.remaining_capacity + 1) % 256,
        UPS := { s.UPS with FullyCharged := true, Charging := false } }
    else { s with remaining_capacity := (s.remaining_capacity + 1) % 256 }
  else if s.UPS.Discharging = true ∧ s.remaining_capacity > 0 then
    if (s.remaining_capacity + 255) % 256 ≤ 15 then
      { s with
        remaining_capacity := (s.remaining_capacity + 255) % 256,
        UPS := { s.UPS with FullyCharged := false, FullyDischarged := one_bit 15 } }
    else
      { s with
        remaining_capacity := (s.remaining_capacity + 255) % 256,
        UPS := { s.UPS with FullyCharged := false } }
  else s

/-- The third block of `update_ups_state`: `runtime_to_empty = remaining_capacity * 72`,
stored in a `uint16_t`. -/
def runtime_block (s : UpsState) : UpsState :=
  { s with runtime_to_empty := (s.remaining_capacity * 72) % 65536 }

/-- The function `update_ups_state`. -/
def update_ups_state (dwell t_check t_store : Nat) (s : UpsState) : UpsState :=
  runtime_block (capacity_block (ac_block dwell t_check t_store s))

/-- The states the program reaches: the start-up state, and the result of
`update_ups_state` on a reachable state for any readings of the tick counter. -/
inductive Reachable (dwell : Nat) : UpsState → Prop where
  | init : Reachable dwell initialState
  | step {s : UpsState} (t_check t_store : Nat) :
      Reachable dwell s → Reachable dwell (update_ups_state dwell t_check t_store s)

/-! ## Predicates used to state the properties -/

/-- The stores of a call fill exactly the offsets below the returned length, each once and
in ascending order, and that length is at most the requested length. -/
def GetReport.FillsFront (r : GetReport) (reqlen : Nat) : Prop :=
  r.ret ≤ reqlen ∧ r.stores.map Prod.fst = List.range r.ret

/-- A Get-Report result that carries the unsigned 16-bit value `x` in little-endian
order. -/
def LittleEndian16 (r : Nat × Buffer) (x : Nat) : Prop :=
  r.1 = 2 ∧ r.2 0 = x % 256 ∧ r.2 1 = x / 256 ∧ r.2 0 + 256 * r.2 1 = x

/-- A Get-Report result that carries the signed 16-bit value `d` in little-endian two's
complement: the two bytes form `d mod 65536`, and read back as a signed 16-bit integer
they give `d`. -/
def TwosComplement16 (r : Nat × Buffer) (d : Int) : Prop :=
  r.1 = 2 ∧ r.2 0 < 256 ∧ r.2 1 < 256 ∧
  ((r.2 0 + 256 * r.2 1 : Nat) : Int) = d % 65536 ∧ signedValue [r.2 0, r.2 1] = d

/-- The status of the wire-encoding scenario: Charging, ACPresent and BatteryPresent set,
every other flag clear. -/
def chargingOnAc : PresentStatus :=
  { Charging := true, Discharging := false, ACPresent := true, BatteryPresent := true,
    BelowRemainingCapacityLimit := false, RemainingTimeLimitExpired := false,
    NeedReplacement := false, VoltageNotRegulated := false, FullyCharged := false,
    FullyDischarged := false, ShutdownRequested := false, ShutdownImminent := false,
    CommunicationLost := false, Overload := false, unused1 := false, unused2 := false }

/-- The Report IDs whose Feature report the callback serves as one byte. -/
def oneByteIds : List Nat := [1, 2, 3, 6, 12, 15, 16, 17, 20, 22, 23, 24, 31, 32]

/-- The Report IDs whose Feature report the callback serves as two bytes. -/
def twoByteIds : List Nat := [7, 9, 10, 11, 13, 14, 18, 19, 26, 28]

/-! ## Set-Report -/

/-- What one call of `tud_hid_set_report_cb` does besides logging: the offsets of `buffer`
it reads, in the order of the source text, and the values of the local variables it
decodes from them. -/
structure SetReport where
  reads : List Nat
  decoded : List Nat
deriving DecidableEq, Repr

/-- The byte `data[k]` for `data = buffer + 1`. -/
def data_at (buffer : Buffer) (k : Nat) : Nat := buffer (k + 1)

/-- The value `(data[hi] << 8) | data[lo]` stored in a `uint16_t`. -/
def data_u16 (buffer : Buffer) (hi lo : Nat) : Nat :=
  ((data_at buffer hi <<< 8) ||| data_at buffer lo) % 65536

/-- The body of `tud_hid_set_report_cb`: the guard on the report type and on `bufsize`,
then the switch on the Report ID with `data_size = bufsize - 1`. -/
def tud_hid_set_report_run (report_id : Nat) (report_type : hid_report_type_t)
    (buffer : Buffer) (bufsize : Nat) : SetReport :=
  if report_type ≠ HID_REPORT_TYPE_FEATURE ∨ bufsize < 1 then ⟨[], []⟩
  else if report_id = 0x01 then
    if bufsize - 1 ≥ 4 then ⟨[2 + 1, 3 + 1], [data_at buffer 2, data_at buffer 3]⟩
    else ⟨[], []⟩
  else if report_id = 0x02 then
    if bufsize - 1 ≥ 5 then ⟨[3 + 1, 2 + 1], [data_u16 buffer 3 2]⟩
    else ⟨[], []⟩
  else if report_id = 0x03 then
    if bufsize - 1 ≥ 6 then
      ⟨[2 + 1, 3 + 1, 5 + 1, 4 + 1],
       [data_at buffer 2, data_at buffer 3, data_u16 buffer 5 4]⟩
    else ⟨[], []⟩
  else if report_id = 0x06 then
    if bufsize - 1 ≥ 11 then ⟨[6 + 1, 5 + 1], [data_u16 buffer 6 5]⟩
    else ⟨[], []⟩
  else if report_id = 0x0B then
    if bufsize - 1 ≥ 28 then ⟨[16 + 1, 15 + 1], [data_u16 buffer 16 15]⟩
    else ⟨[], []⟩
  else ⟨[], []⟩

/-- The callback `tud_hid_set_report_cb`: the globals after the call, and what the call
read and decoded.  No statement of the function assigns to a global: the decoded values
go to the log only. -/
def tud_hid_set_report_cb (s : UpsState) (report_id : Nat) (report_type : hid_report_type_t)
    (buffer : Buffer) (bufsize : Nat) : UpsState × SetReport :=
  (s, tud_hid_set_report_run report_id report_type buffer bufsize)

/-- The Report IDs that have a `case` in the switch of `tud_hid_set_report_cb`. -/
def setHandledIds : List Nat := [0x01, 0x02, 0x03, 0x06, 0x0B]

/-- The Report IDs of the fields a host may set: warning capacity limit, remaining
capacity limit, delay before shutdown, delay before reboot. -/
def settableIds : List Nat :=
  [HID_PD_WARNCAPACITYLIMIT, HID_PD_REMNCAPACITYLIMIT, HID_PD_DELAYBE4SHUTDOWN,
   HID_PD_DELAYBE4REBOOT]

/-- A payload preceded by its Report ID byte, as `tud_hid_set_report_cb` expects it
(`data = buffer + 1`). -/
def framed (report_id : Nat) (payload : Buffer) : Buffer :=
  fun j => if j = 0 then report_id else payload (j - 1)

/-- The start-up state with `delay_before_shutdown` set to 0. -/
def zeroDelayState : UpsState := { initialState with delay_before_shutdown := 0 }

/-- The start-up state with `remaining_capacity` set to 0. -/
def emptyBatteryState : UpsState := { initialState with remaining_capacity := 0 }

/-! ## Runs of the simulation -/

/-- The condition of the first `if` of `update_ups_state`: more than `dwell` ticks have
passed since `ac_timer`, in `uint32_t` arithmetic. -/
def dwell_elapsed (dwell t_check : Nat) (s : UpsState) : Prop :=
  (t_check + 4294967296 - s.ac_timer) % 4294967296 > dwell

instance (dwell t_check : Nat) (s : UpsState) : Decidable (dwell_elapsed dwell t_check s) := by
  unfold dwell_elapsed; infer_instance

/-- A run of `n` consecutive `update_ups_state` steps none of which performs an AC
transition (capacity ticks only), from the first state to the second. -/
inductive QuietRun (dwell : Nat) : Nat → UpsState → UpsState → Prop where
  | done (s : UpsState) : QuietRun dwell 0 s s
  | step {n : Nat} {s s' : UpsState} (t_check t_store : Nat) :
      QuietRun dwell n s s' → ¬ dwell_elapsed dwell t_check s' →
      QuietRun dwell (n + 1) s (update_ups_state dwell t_check t_store s')

/-- What one `update_ups_state` step does when it performs no AC transition. -/
def capacity_tick (s : UpsState) : UpsState :=
  runtime_block (capacity_block s)

/-- The relations between the status flags and the capacity that hold along every run. -/
def Consistent (s : UpsState) : Prop :=
  ¬ (s.UPS.Charging = true ∧ s.UPS.Discharging = true) ∧
  (s.UPS.ACPresent = false → s.UPS.Discharging = true) ∧
  (s.UPS.ACPresent = true → s.UPS.Discharging = false) ∧
  (s.UPS.FullyCharged = true →
    s.remaining_capacity = 100 ∧ s.UPS.Charging = false ∧ s.UPS.Discharging = false) ∧
  (s.UPS.ACPresent = true → s.UPS.Charging = true ∨ 100 ≤ s.remaining_capacity) ∧
  (s.UPS.Charging = true → 0 < s.remaining_capacity)

/-! ## Runs from an arbitrary state, the string table, declared ranges -/

/-- The states that `update_ups_state` steps reach from a given state, for any readings
of the tick counter. -/
inductive Steps (dwell : Nat) : UpsState → UpsState → Prop where
  | refl (s : UpsState) : Steps dwell s s
  | step {s s' : UpsState} (t_check t_store : Nat) :
      Steps dwell s s' → Steps dwell s (update_ups_state dwell t_check t_store s')

/-- The array `descriptor_str`, whose designated initialisers fill the indices 0 to 5. -/
def descriptor_str : List String :=
  ["en", "DINGHUGANG", "DHG.UPS", "383503417", "Li-ion", "DHG"]

/-- The callback `tud_hid_get_report_cb` with the globals it leaves: no statement of the
function assigns to a global, so the state after the call is the state before it. -/
def tud_hid_get_report_call (s : UpsState) (report_id : Nat)
    (report_type : hid_report_type_t) (buffer : Buffer) (reqlen : Nat) :
    UpsState × Nat × Buffer :=
  (s, tud_hid_get_report_cb s report_id report_type buffer reqlen)

/-- The bytes a Get-Report result carries: the first `n` bytes of the buffer for a
returned length `n`. -/
def payload (r : Nat × Buffer) : List Nat := (List.range r.1).map r.2

/-- The number the handler encodes in a Get-Report result: its bytes read as one
little-endian integer, in two-complement when the field is signed. -/
def encodedValue (r : Nat × Buffer) (signed : Bool) : Int :=
  if signed then signedValue (payload r) else (unsignedValue (payload r) : Int)

/-- The LOGICAL_MINIMUM and LOGICAL_MAXIMUM in effect for the Feature field of a Report
ID (for a report of several fields, those of its first field); the empty range 1..0 when
the descriptor declares no Feature field for the ID. -/
def logicalRange (bytes : List Nat) (id : Nat) : Int × Int :=
  match (fieldsOf bytes MainKind.Feature id).head? with
  | some f => (f.logical_minimum, f.logical_maximum)
  | none => (1, 0)

/-- The value a Feature Get-Report encodes for a Report ID lies within the logical range
the descriptor has in effect for it; the field counts as signed when its logical minimum
is negative. -/
def WithinLogicalRange (s : UpsState) (id : Nat) : Prop :=
  (logicalRange hid_report_descriptor id).1 ≤
    encodedValue (tud_hid_get_report_cb s id HID_REPORT_TYPE_FEATURE (fun _ => 0) 64)
      (decide ((logicalRange hid_report_descriptor id).1 < 0)) ∧
  encodedValue (tud_hid_get_report_cb s id HID_REPORT_TYPE_FEATURE (fun _ => 0) 64)
      (decide ((logicalRange hid_report_descriptor id).1 < 0)) ≤
    (logicalRange hid_report_descriptor id).2

instance (s : UpsState) (id : Nat) : Decidable (WithinLogicalRange s id) := by
  unfold WithinLogicalRange; infer_instance

/-- A state with FullyCharged = 1 while AC is absent: capacity 100, Discharging = 1,
Charging = 0. -/
def fullOnBatteryState : UpsState :=
  { initialState with
    UPS := { initialState.UPS with
             ACPresent := false, Charging := false, Discharging := true,
             FullyCharged := true },
    remaining_capacity := 100 }

/-- The start-up state with `warring_capacity_limit` set to 30 and
`remaining_capacity_limit` set to 5. -/
def otherLimitsState : UpsState :=
  { initialState with warring_capacity_limit := 30, remaining_capacity_limit := 5 }

/-- The state after an AC-loss step from start-up followed by 44 steps without AC
transition, for a dwell of 60000 ticks. -/
def drainedState : UpsState :=
  (update_ups_state 60000 70001 70001)^[44] (update_ups_state 60000 70000 70001 initialState)

/-! ## Locals of Set-Report -/

/-- The local `data_size` of `tud_hid_set_report_cb`: the `uint16_t` value `bufsize - 1`,
which the function computes only past the guard on the report type and on `bufsize`
(`none` when the function returns at the guard). -/
def set_report_data_size (report_type : hid_report_type_t) (bufsize : Nat) : Option Nat :=
  if report_type ≠ HID_REPORT_TYPE_FEATURE ∨ bufsize < 1 then none
  else some ((bufsize + 65535) % 65536)

/-! ## Auxiliary facts -/

theorem storeAll_other (stores : List (Nat × Nat)) (buffer : Buffer) (j : Nat)
    (h : ∀ p ∈ stores, p.1 ≠ j) : storeAll buffer stores j = buffer j := by
  induction stores generalizing buffer with
  | nil => rfl
  | cons p rest ih =>
    obtain ⟨i, v⟩ := p
    simp only [storeAll]
    rw [ih]
    · have : i ≠ j := h (i, v) (by simp)
      simp [store, Ne.symm this]
    · intro q hq; exact h q (by simp [hq])

theorem low_byte (x : Nat) : x &&& 0xFF = x % 256 :=
  Nat.and_pow_two_sub_one_eq_mod x 8

theorem high_byte (x : Nat) (h : x < 65536) : (x >>> 8) &&& 0xFF = x / 256 := by
  rw [low_byte, Nat.shiftRight_eq_div_pow]
  omega

theorem int_low_byte (d : Int) : (int_bits d &&& 0xFF : Nat) = (d % 256).toNat := by
  rw [low_byte]; unfold int_bits; omega

theorem int_high_byte (d : Int) :
    (int_bits (d >>> (8 : Nat)) &&& 0xFF : Nat) = (d / 256 % 256).toNat := by
  rw [low_byte, Int.shiftRight_eq_div_pow]; unfold int_bits
  norm_num
  omega

theorem serve_ret (reqlen n : Nat) (stores : List (Nat × Nat)) :
    (serve reqlen n stores).ret = if reqlen ≥ n then n else 0 := by
  unfold serve; split <;> simp

theorem serve_of_le (reqlen n : Nat) (stores : List (Nat × Nat)) (h : n ≤ reqlen) :
    serve reqlen n stores = ⟨n, stores⟩ := by
  unfold serve; simp [h]

theorem flagSum_eq (ps : PresentStatus) : flagSum ps = packBits ps.members := by
  simp [flagSum, PresentStatus.members, packBits, List.range, List.range.loop]
  omega

theorem status_bytes (ps : PresentStatus) :
    ps.storage.getD 0 0 = flagSum ps % 256 ∧ ps.storage.getD 1 0 = flagSum ps / 256 := by
  have hb : ∀ b : Bool, b.toNat ≤ 1 := Bool.toNat_le
  have h0 := hb ps.Charging
  have h1 := hb ps.Discharging
  have h2 := hb ps.ACPresent
  have h3 := hb ps.BatteryPresent
  have h4 := hb ps.BelowRemainingCapacityLimit
  have h5 := hb ps.RemainingTimeLimitExpired
  have h6 := hb ps.NeedReplacement
  have h7 := hb ps.VoltageNotRegulated
  have h8 := hb ps.FullyCharged
  have h9 := hb ps.FullyDischarged
  have h10 := hb ps.ShutdownRequested
  have h11 := hb ps.ShutdownImminent
  have h12 := hb ps.CommunicationLost
  have h13 := hb ps.Overload
  have h14 := hb ps.unused1
  have h15 := hb ps.unused2
  simp only [flagSum_eq, PresentStatus.storage, PresentStatus.members, packBits, List.take,
    List.drop, List.getD_cons_zero, List.getD_cons_succ]
  omega

theorem serve_fills (reqlen n : Nat) (stores : List (Nat × Nat))
    (h : stores.map Prod.fst = List.range n) : (serve reqlen n stores).FillsFront reqlen := by
  unfold serve
  split
  · exact ⟨by assumption, h⟩
  · exact ⟨Nat.zero_le _, rfl⟩

theorem ite_fills (c : Prop) [Decidable c] (a b : GetReport) (reqlen : Nat)
    (ha : a.FillsFront reqlen) (hb : b.FillsFront reqlen) : (if c then a else b).FillsFront reqlen := by
  split <;> assumption

theorem run_fills (s : UpsState) (report_id : Nat) (report_type : hid_report_type_t)
    (reqlen : Nat) : (tud_hid_get_report_run s report_id report_type reqlen).FillsFront reqlen := by
  unfold tud_hid_get_report_run
  repeat first
    | exact ⟨Nat.zero_le _, rfl⟩
    | exact serve_fills _ _ _ rfl
    | apply ite_fills

theorem capacity_step (dwell t_check t_store : Nat) (s : UpsState)
    (h : s.remaining_capacity ≤ 100) :
    (update_ups_state dwell t_check t_store s).remaining_capacity ≤ 100 := by
  have hac : (ac_block dwell t_check t_store s).remaining_capacity = s.remaining_capacity := by
    unfold ac_block; split_ifs <;> rfl
  unfold update_ups_state runtime_block capacity_block
  simp only [hac]
  split_ifs <;> simp <;> omega

/-! ## Get-Report: sizes, layout and encodings -/

theorem packBits_testBit (l : List Bool) (i : Nat) :
    (packBits l).testBit i = l.getD i false := by
  induction l generalizing i with
  | nil => simp [packBits]
  | cons b bs ih =>
    cases i with
    | zero =>
      simp only [packBits, List.getD_cons_zero, Nat.testBit_zero]
      cases b <;> simp
    | succ i =>
      simp only [packBits, List.getD_cons_succ, Nat.testBit_succ]
      have : (b.toNat + 2 * packBits bs) / 2 = packBits bs := by
        have := Bool.toNat_le b
        omega
      rw [this, ih]

theorem cb_two_bytes (s : UpsState) (report_id : Nat) (buffer : Buffer) (reqlen b0 b1 : Nat)
    (hrun : tud_hid_get_report_run s report_id HID_REPORT_TYPE_FEATURE reqlen
      = serve reqlen 2 [(0, b0), (1, b1)])
    (h : 2 ≤ reqlen) :
    (tud_hid_get_report_cb s report_id HID_REPORT_TYPE_FEATURE buffer reqlen).1 = 2 ∧
    (tud_hid_get_report_cb s report_id HID_REPORT_TYPE_FEATURE buffer reqlen).2 0 = b0 ∧
    (tud_hid_get_report_cb s report_id HID_REPORT_TYPE_FEATURE buffer reqlen).2 1 = b1 := by
  simp [tud_hid_get_report_cb, hrun, serve_of_le _ _ _ h, storeAll, store]

theorem littleEndian16_of_run (s : UpsState) (report_id : Nat) (buffer : Buffer)
    (reqlen x : Nat)
    (hrun : tud_hid_get_report_run s report_id HID_REPORT_TYPE_FEATURE reqlen
      = serve reqlen 2 [(0, x &&& 0xFF), (1, (x >>> 8) &&& 0xFF)])
    (h : 2 ≤ reqlen) (hx : x < 65536) :
    LittleEndian16 (tud_hid_get_report_cb s report_id HID_REPORT_TYPE_FEATURE buffer reqlen) x := by
  obtain ⟨h1, h2, h3⟩ := cb_two_bytes s report_id buffer reqlen _ _ hrun h
  rw [low_byte] at h2
  rw [high_byte x hx] at h3
  refine ⟨h1, h2, h3, ?_⟩
  rw [h2, h3]; omega

theorem twosComplement16_of_run (s : UpsState) (report_id : Nat) (buffer : Buffer)
    (reqlen : Nat) (d : Int)
    (hrun : tud_hid_get_report_run s report_id HID_REPORT_TYPE_FEATURE reqlen
      = serve reqlen 2 [(0, int_bits d &&& 0xFF), (1, int_bits (d >>> (8 : Nat)) &&& 0xFF)])
    (h : 2 ≤ reqlen) (hlo : -32768 ≤ d) (hhi : d ≤ 32767) :
    TwosComplement16 (tud_hid_get_report_cb s report_id HID_REPORT_TYPE_FEATURE buffer reqlen) d := by
  obtain ⟨h1, h2, h3⟩ := cb_two_bytes s report_id buffer reqlen _ _ hrun h
  rw [int_low_byte] at h2
  rw [int_high_byte] at h3
  refine ⟨h1, ?_, ?_, ?_, ?_⟩
  · rw [h2]; omega
  · rw [h3]; omega
  · rw [h2, h3]; omega
  · rw [h2, h3]
    simp only [signedValue, unsignedValue, List.length_cons, List.length_nil]
    split_ifs with hc
    · omega
    · simp only [ne_eq, reduceCtorEq, not_false_eq_true, and_true] at hc
      omega

/-- C1 (the code breaks it): the descriptor declares 25 Report IDs; the Feature report
widths it declares for them and the lengths `tud_hid_get_report_cb` returns for a request
of 64 bytes are listed side by side.  They agree for 23 IDs but not for ID 14
(FullChargeCapacity: 8 bits declared, 2 bytes returned) nor for ID 8 (RemainingTimeLimit:
16 bits declared, 0 bytes returned). -/
theorem feature_size_disagreement (s : UpsState) (buffer : Buffer) :
    declaredReportIds hid_report_descriptor =
      [1, 2, 3, 6, 31, 32, 22, 16, 24, 14, 23, 12, 15, 17, 9, 26, 28, 13, 8, 18, 19, 10, 11,
       20, 7] ∧
    (declaredReportIds hid_report_descriptor).map
        (fun id => reportBits hid_report_descriptor MainKind.Feature id) =
      [8, 8, 8, 8, 8, 8, 8, 8, 8, 8, 8, 8, 8, 8, 16, 16, 16, 16, 16, 16, 16, 16, 16, 8, 16] ∧
    (declaredReportIds hid_report_descriptor).map
        (fun id => (tud_hid_get_report_cb s id HID_REPORT_TYPE_FEATURE buffer 64).1) =
      [1, 1, 1, 1, 1, 1, 1, 1, 1, 2, 1, 1, 1, 1, 2, 2, 2, 2, 0, 2, 2, 2, 2, 1, 2] ∧
    reportBits hid_report_descriptor MainKind.Feature HID_PD_FULLCHARGECAPACITY = 8 ∧
    (tud_hid_get_report_cb s HID_PD_FULLCHARGECAPACITY HID_REPORT_TYPE_FEATURE buffer 64).1 = 2 ∧
    reportBits hid_report_descriptor MainKind.Feature HID_PD_REMAINTIMELIMIT = 16 ∧
    (tud_hid_get_report_cb s HID_PD_REMAINTIMELIMIT HID_REPORT_TYPE_FEATURE buffer 64).1 = 0 := by
  have hids : declaredReportIds hid_report_descriptor =
      [1, 2, 3, 6, 31, 32, 22, 16, 24, 14, 23, 12, 15, 17, 9, 26, 28, 13, 8, 18, 19, 10, 11,
       20, 7] := by
    set_option maxRecDepth 100000 in decide
  refine ⟨hids, ?_, ?_, ?_, rfl, ?_, rfl⟩
  · set_option maxRecDepth 100000 in decide
  · rw [hids]; rfl
  · set_option maxRecDepth 100000 in decide
  · set_option maxRecDepth 100000 in decide

/-- C2: the members of `struct PresentStatus` are the fourteen named flags in the listed
order followed by the two reserved bits, and the Feature report of Report ID 7 that
`hid_report_descriptor` declares has, at bit offset `i` for `i` in 0..13, a one-bit field
whose usage is the usage of flag `i`, followed at offset 14 by a two-bit field without
usage that is declared constant. -/
theorem status_bit_order_matches_descriptor :
    (∀ ps : PresentStatus,
      ps.members = StatusFlag.declared.map (StatusFlag.read ps) ++ [ps.unused1, ps.unused2]) ∧
    layoutFrom 0 (fieldsOf hid_report_descriptor MainKind.Feature HID_PD_PRESENTSTATUS) =
      ((List.range 14).zip StatusFlag.declared).map
          (fun p => (p.1, p.2.usage.1, [p.2.usage.2], 1)) ++ [(14, 0x84, [], 2)] ∧
    ((fieldsOf hid_report_descriptor MainKind.Feature HID_PD_PRESENTSTATUS).getLast?.map
        fun f => f.flags % 2) = some 1 := by
  refine ⟨fun ps => rfl, ?_, ?_⟩
  · set_option maxRecDepth 100000 in decide
  · set_option maxRecDepth 100000 in decide

/-- C3: for every status and every `reqlen >= 2`, a Feature Get-Report for Report ID 7
returns length 2 with `buffer[0] = v mod 256` and `buffer[1] = v div 256`, where `v` is the
sum of `flag_i * 2^i` in declaration order, which is the value `PresentStatus_to_uint16`
computes; every member is bit `i` of `buffer[0] + 256 * buffer[1]`. -/
theorem present_status_wire_encoding (s : UpsState) (buffer : Buffer) (reqlen : Nat)
    (h : reqlen ≥ 2) :
    (tud_hid_get_report_cb s HID_PD_PRESENTSTATUS HID_REPORT_TYPE_FEATURE buffer reqlen).1 = 2 ∧
    (tud_hid_get_report_cb s HID_PD_PRESENTSTATUS HID_REPORT_TYPE_FEATURE buffer reqlen).2 0
      = flagSum s.UPS % 256 ∧
    (tud_hid_get_report_cb s HID_PD_PRESENTSTATUS HID_REPORT_TYPE_FEATURE buffer reqlen).2 1
      = flagSum s.UPS / 256 ∧
    flagSum s.UPS = PresentStatus_to_uint16 s.UPS ∧
    ∀ i, i < 16 → s.UPS.members.getD i false =
      ((tud_hid_get_report_cb s HID_PD_PRESENTSTATUS HID_REPORT_TYPE_FEATURE buffer reqlen).2 0
        + 256 *
        (tud_hid_get_report_cb s HID_PD_PRESENTSTATUS HID_REPORT_TYPE_FEATURE buffer reqlen).2 1
      ).testBit i := by
  obtain ⟨hb0, hb1⟩ := status_bytes s.UPS
  have hrun : tud_hid_get_report_run s HID_PD_PRESENTSTATUS HID_REPORT_TYPE_FEATURE reqlen
      = serve reqlen 2 [(0, s.UPS.storage.getD 0 0), (1, s.UPS.storage.getD 1 0)] := rfl
  obtain ⟨h1, h2, h3⟩ := cb_two_bytes s HID_PD_PRESENTSTATUS buffer reqlen _ _ hrun h
  rw [hb0] at h2
  rw [hb1] at h3
  refine ⟨h1, h2, h3, ?_, ?_⟩
  · unfold PresentStatus_to_uint16 load_uint16
    rw [hb0, hb1]; omega
  · intro i _
    rw [h2, h3, Nat.mod_add_div, flagSum_eq, packBits_testBit]

/-- Witness of C3 at the start-up state with a two-byte request. -/
theorem present_status_wire_encoding_witness :
    (tud_hid_get_report_cb initialState HID_PD_PRESENTSTATUS HID_REPORT_TYPE_FEATURE
      (fun _ => 0) 2).2 0 = flagSum initialState.UPS % 256 :=
  (present_status_wire_encoding initialState (fun _ => 0) 2 (by decide)).2.1

theorem one_byte_length (s : UpsState) (report_id reqlen : Nat) (h : report_id ∈ oneByteIds) :
    (tud_hid_get_report_run s report_id HID_REPORT_TYPE_FEATURE reqlen).ret
      = if 1 ≤ reqlen then 1 else 0 := by
  simp only [oneByteIds, List.mem_cons, List.mem_singleton, List.not_mem_nil, or_false] at h
  rcases h with rfl | rfl | rfl | rfl | rfl | rfl | rfl | rfl | rfl | rfl | rfl | rfl | rfl | rfl <;>
    exact serve_ret _ _ _

theorem two_byte_length (s : UpsState) (report_id reqlen : Nat) (h : report_id ∈ twoByteIds) :
    (tud_hid_get_report_run s report_id HID_REPORT_TYPE_FEATURE reqlen).ret
      = if 2 ≤ reqlen then 2 else 0 := by
  simp only [twoByteIds, List.mem_cons, List.mem_singleton, List.not_mem_nil, or_false] at h
  rcases h with rfl | rfl | rfl | rfl | rfl | rfl | rfl | rfl | rfl | rfl <;>
    exact serve_ret _ _ _

theorem run_unhandled (s : UpsState) (report_id : Nat) (report_type : hid_report_type_t)
    (reqlen : Nat) (h : report_id ∉ handledIds) :
    tud_hid_get_report_run s report_id report_type reqlen = ⟨0, []⟩ := by
  simp only [handledIds, List.mem_cons, List.mem_singleton, List.not_mem_nil, or_false,
    not_or] at h
  unfold tud_hid_get_report_run
  simp [h]

theorem reachable_capacity (dwell : Nat) (s : UpsState) (h : Reachable dwell s) :
    s.remaining_capacity ≤ 100 := by
  induction h with
  | init => decide
  | step t_check t_store _ ih => exact capacity_step dwell t_check t_store _ ih

/-- C4 (as stated, it fails): in the start-up state, whose flags are Charging, ACPresent and
BatteryPresent only, a Get-Report for Report ID 7 with report type Input and `reqlen = 2`
does not return length 2 with the bytes 0x0D, 0x00. -/
theorem input_present_status_not_served :
    initialState.UPS = chargingOnAc ∧
    ¬ ((tud_hid_get_report_cb initialState HID_PD_PRESENTSTATUS HID_REPORT_TYPE_INPUT
          (fun _ => 0) 2).1 = 2 ∧
       (tud_hid_get_report_cb initialState HID_PD_PRESENTSTATUS HID_REPORT_TYPE_INPUT
          (fun _ => 0) 2).2 0 = 0x0D ∧
       (tud_hid_get_report_cb initialState HID_PD_PRESENTSTATUS HID_REPORT_TYPE_INPUT
          (fun _ => 0) 2).2 1 = 0x00) := by
  decide

/-- C4 (amended): with Charging, ACPresent and BatteryPresent set and every other flag
clear, a Get-Report for Report ID 7 with report type Feature and `reqlen = 2` returns
length 2 and the bytes 0x0D, 0x00; with report type Input it returns length 0 and leaves
the buffer as it was. -/
theorem feature_present_status_scenario (s : UpsState) (buffer : Buffer)
    (h : s.UPS = chargingOnAc) :
    (tud_hid_get_report_cb s HID_PD_PRESENTSTATUS HID_REPORT_TYPE_FEATURE buffer 2).1 = 2 ∧
    (tud_hid_get_report_cb s HID_PD_PRESENTSTATUS HID_REPORT_TYPE_FEATURE buffer 2).2 0 = 0x0D ∧
    (tud_hid_get_report_cb s HID_PD_PRESENTSTATUS HID_REPORT_TYPE_FEATURE buffer 2).2 1 = 0x00 ∧
    tud_hid_get_report_cb s HID_PD_PRESENTSTATUS HID_REPORT_TYPE_INPUT buffer 2 = (0, buffer) := by
  have hrun : tud_hid_get_report_run s HID_PD_PRESENTSTATUS HID_REPORT_TYPE_FEATURE 2
      = serve 2 2 [(0, 0x0D), (1, 0x00)] := by
    have : tud_hid_get_report_run s HID_PD_PRESENTSTATUS HID_REPORT_TYPE_FEATURE 2
        = serve 2 2 (memcpy_stores s.UPS.storage 2) := rfl
    rw [this, h]; rfl
  obtain ⟨h1, h2, h3⟩ := cb_two_bytes s HID_PD_PRESENTSTATUS buffer 2 _ _ hrun (Nat.le_refl 2)
  exact ⟨h1, h2, h3, rfl⟩

/-- Witness of the amended C4 at the start-up state. -/
theorem feature_present_status_scenario_witness :
    initialState.UPS = chargingOnAc ∧
    (tud_hid_get_report_cb initialState HID_PD_PRESENTSTATUS HID_REPORT_TYPE_FEATURE
      (fun _ => 0xAA) 2).2 0 = 0x0D :=
  ⟨rfl, (feature_present_status_scenario initialState (fun _ => 0xAA) rfl).2.1⟩

/-- C5: the Report IDs the callback recognises are the fourteen one-byte IDs and the ten
two-byte IDs; for each of them and every `reqlen` a Feature Get-Report returns the full
size when `reqlen` is at least that size and 0 otherwise, so never a truncated length, and
0 when `reqlen = 0`. -/
theorem feature_length_full_or_zero (s : UpsState) (report_id : Nat) (buffer : Buffer)
    (reqlen : Nat) (h : report_id ∈ handledIds) :
    (report_id ∈ oneByteIds ∨ report_id ∈ twoByteIds) ∧
    (∀ id, id ∈ oneByteIds ++ twoByteIds → id ∈ handledIds) ∧
    (report_id ∈ oneByteIds →
      (tud_hid_get_report_cb s report_id HID_REPORT_TYPE_FEATURE buffer reqlen).1
        = if 1 ≤ reqlen then 1 else 0) ∧
    (report_id ∈ twoByteIds →
      (tud_hid_get_report_cb s report_id HID_REPORT_TYPE_FEATURE buffer reqlen).1
        = if 2 ≤ reqlen then 2 else 0) ∧
    (tud_hid_get_report_cb s report_id HID_REPORT_TYPE_FEATURE buffer 0).1 = 0 := by
  have hsplit : ∀ id ∈ handledIds, id ∈ oneByteIds ∨ id ∈ twoByteIds := by decide
  have hback : ∀ id ∈ oneByteIds ++ twoByteIds, id ∈ handledIds := by decide
  refine ⟨hsplit _ h, hback, fun h1 => one_byte_length s _ _ h1,
    fun h2 => two_byte_length s _ _ h2, ?_⟩
  rcases hsplit _ h with h1 | h2
  · exact one_byte_length s _ 0 h1
  · exact two_byte_length s _ 0 h2

/-- Witness of C5: Report ID 14 with a one-byte request returns 0, not a truncated 1. -/
theorem feature_length_full_or_zero_witness :
    HID_PD_FULLCHARGECAPACITY ∈ handledIds ∧
    (tud_hid_get_report_cb initialState HID_PD_FULLCHARGECAPACITY HID_REPORT_TYPE_FEATURE
      (fun _ => 0) 1).1 = 0 :=
  ⟨by decide,
   (feature_length_full_or_zero initialState HID_PD_FULLCHARGECAPACITY (fun _ => 0) 1
      (by decide)).2.2.2.1 (by decide)⟩

/-- C6: for a Report ID without a `case` in the switch, whatever the report type, the
requested length and the state, Get-Report returns 0 and leaves the buffer as it was. -/
theorem unknown_id_returns_nothing (s : UpsState) (report_id : Nat)
    (report_type : hid_report_type_t) (buffer : Buffer) (reqlen : Nat)
    (h : report_id ∉ handledIds) :
    tud_hid_get_report_cb s report_id report_type buffer reqlen = (0, buffer) := by
  unfold tud_hid_get_report_cb
  rw [run_unhandled s report_id report_type reqlen h]
  rfl

/-- Witness of C6: Report ID 0x15 (Current) has no case. -/
theorem unknown_id_returns_nothing_witness :
    HID_PD_CURRENT ∉ handledIds ∧
    tud_hid_get_report_cb initialState HID_PD_CURRENT HID_REPORT_TYPE_FEATURE (fun _ => 7) 64
      = (0, fun _ => 7) :=
  ⟨by decide,
   unknown_id_returns_nothing initialState HID_PD_CURRENT HID_REPORT_TYPE_FEATURE (fun _ => 7) 64
     (by decide)⟩

/-- C7: for every state, Report ID, report type, `reqlen` and buffer, the returned length
`n` is at most `reqlen`, the stores the callback makes go to the offsets 0..n-1 exactly,
and every offset from `n` on (so every offset from `reqlen` on) keeps its byte. -/
theorem get_report_stays_in_bounds (s : UpsState) (report_id : Nat)
    (report_type : hid_report_type_t) (buffer : Buffer) (reqlen : Nat) :
    (tud_hid_get_report_cb s report_id report_type buffer reqlen).1 ≤ reqlen ∧
    (tud_hid_get_report_run s report_id report_type reqlen).stores.map Prod.fst =
      List.range (tud_hid_get_report_cb s report_id report_type buffer reqlen).1 ∧
    (∀ j, (tud_hid_get_report_cb s report_id report_type buffer reqlen).1 ≤ j →
      (tud_hid_get_report_cb s report_id report_type buffer reqlen).2 j = buffer j) ∧
    (∀ j, reqlen ≤ j →
      (tud_hid_get_report_cb s report_id report_type buffer reqlen).2 j = buffer j) := by
  obtain ⟨hle, hidx⟩ := run_fills s report_id report_type reqlen
  have hkeep : ∀ j, (tud_hid_get_report_run s report_id report_type reqlen).ret ≤ j →
      storeAll buffer (tud_hid_get_report_run s report_id report_type reqlen).stores j
        = buffer j := by
    intro j hj
    apply storeAll_other
    intro p hp
    have hmem : p.1 ∈ (tud_hid_get_report_run s report_id report_type reqlen).stores.map
        Prod.fst := List.mem_map_of_mem _ hp
    rw [hidx, List.mem_range] at hmem
    omega
  exact ⟨hle, hidx, hkeep, fun j hj => hkeep j (Nat.le_trans hle hj)⟩

/-- C8: for each unsigned 16-bit field served by a Feature Get-Report (IDs 9, 10, 11, 13,
14, 26, 28) and every value of the field, the payload is little-endian:
`buffer[0] = x mod 256`, `buffer[1] = x div 256`, `buffer[0] + 256 * buffer[1] = x`. -/
theorem uint16_fields_little_endian (s : UpsState) (buffer : Buffer) (reqlen : Nat)
    (hs : s.InRange) (h : 2 ≤ reqlen) :
    LittleEndian16
      (tud_hid_get_report_cb s HID_PD_MANUFACTUREDATE HID_REPORT_TYPE_FEATURE buffer reqlen)
      s.manufacture_date ∧
    LittleEndian16
      (tud_hid_get_report_cb s HID_PD_CONFIGVOLTAGE HID_REPORT_TYPE_FEATURE buffer reqlen)
      s.config_voltage ∧
    LittleEndian16
      (tud_hid_get_report_cb s HID_PD_VOLTAGE HID_REPORT_TYPE_FEATURE buffer reqlen)
      s.voltage ∧
    LittleEndian16
      (tud_hid_get_report_cb s HID_PD_RUNTIMETOEMPTY HID_REPORT_TYPE_FEATURE buffer reqlen)
      s.runtime_to_empty ∧
    LittleEndian16
      (tud_hid_get_report_cb s HID_PD_FULLCHARGECAPACITY HID_REPORT_TYPE_FEATURE buffer reqlen)
      s.full_charge_capacity ∧
    LittleEndian16
      (tud_hid_get_report_cb s HID_PD_AVERAGETIME2FULL HID_REPORT_TYPE_FEATURE buffer reqlen)
      s.avg_time_to_full ∧
    LittleEndian16
      (tud_hid_get_report_cb s HID_PD_AVERAGETIME2EMPTY HID_REPORT_TYPE_FEATURE buffer reqlen)
      s.avg_time_to_empty := by
  obtain ⟨h1, h2, h3, _, h5, h6, _, _, _, _, _, h12, h13, _⟩ := hs
  exact ⟨littleEndian16_of_run s _ buffer reqlen _ rfl h h1,
    littleEndian16_of_run s _ buffer reqlen _ rfl h h2,
    littleEndian16_of_run s _ buffer reqlen _ rfl h h3,
    littleEndian16_of_run s _ buffer reqlen _ rfl h h5,
    littleEndian16_of_run s _ buffer reqlen _ rfl h h6,
    littleEndian16_of_run s _ buffer reqlen _ rfl h h12,
    littleEndian16_of_run s _ buffer reqlen _ rfl h h13⟩

/-- Witness of C8 at the start-up state: full_charge_capacity 10000 is sent as 0x10, 0x27. -/
theorem uint16_fields_little_endian_witness :
    initialState.InRange ∧ 2 ≤ 2 ∧
    LittleEndian16
      (tud_hid_get_report_cb initialState HID_PD_FULLCHARGECAPACITY HID_REPORT_TYPE_FEATURE
        (fun _ => 0) 2)
      10000 :=
  ⟨by decide, by decide,
   (uint16_fields_little_endian initialState (fun _ => 0) 2 (by decide) (by decide)).2.2.2.2.1⟩

/-- C9: for every signed 16-bit value of `delay_before_shutdown` (ID 18) and of
`delay_before_reboot` (ID 19), the two-byte Feature Get-Report payload is the little-endian
two-complement encoding: `buffer[0] + 256 * buffer[1] = d mod 65536`, and the two bytes
read as a signed 16-bit integer give `d`. -/
theorem delay_fields_twos_complement (s : UpsState) (buffer : Buffer) (reqlen : Nat)
    (hs : s.InRange) (h : 2 ≤ reqlen) :
    TwosComplement16
      (tud_hid_get_report_cb s HID_PD_DELAYBE4SHUTDOWN HID_REPORT_TYPE_FEATURE buffer reqlen)
      s.delay_before_shutdown ∧
    TwosComplement16
      (tud_hid_get_report_cb s HID_PD_DELAYBE4REBOOT HID_REPORT_TYPE_FEATURE buffer reqlen)
      s.delay_before_reboot := by
  obtain ⟨_, _, _, _, _, _, _, _, h9, h10, _⟩ := hs
  exact ⟨twosComplement16_of_run s _ buffer reqlen _ rfl h h9.1 h9.2,
    twosComplement16_of_run s _ buffer reqlen _ rfl h h10.1 h10.2⟩

/-- Witness of C9 with a negative delay: -300 is sent as 0xD4, 0xFE. -/
theorem delay_fields_twos_complement_witness :
    ({ initialState with delay_before_shutdown := -300 } : UpsState).InRange ∧ 2 ≤ 2 ∧
    TwosComplement16
      (tud_hid_get_report_cb { initialState with delay_before_shutdown := -300 }
        HID_PD_DELAYBE4SHUTDOWN HID_REPORT_TYPE_FEATURE (fun _ => 0) 2)
      (-300) :=
  ⟨by decide, by decide,
   (delay_fields_twos_complement { initialState with delay_before_shutdown := -300 }
      (fun _ => 0) 2 (by decide) (by decide)).1⟩

/-! ## The simulation step: invariants -/

/-- C10: in every state reachable from the start-up state by `update_ups_state` steps,
whatever the tick-counter readings, `remaining_capacity` is within [0,100]; and one step
maps any state with `remaining_capacity <= 100` to a state with
`remaining_capacity <= 100`. -/
theorem remaining_capacity_within_bounds (dwell : Nat) :
    (∀ s, Reachable dwell s → 0 ≤ s.remaining_capacity ∧ s.remaining_capacity ≤ 100) ∧
    (∀ s t_check t_store, s.remaining_capacity ≤ 100 →
      (update_ups_state dwell t_check t_store s).remaining_capacity ≤ 100) :=
  ⟨fun s h => ⟨Nat.zero_le _, reachable_capacity dwell s h⟩,
   fun s t_check t_store h => capacity_step dwell t_check t_store s h⟩

/-- Witness of C10: the state after an AC-loss step from start-up. -/
theorem remaining_capacity_within_bounds_witness :
    Reachable 60000 (update_ups_state 60000 70000 70001 initialState) ∧
    (update_ups_state 60000 70000 70001 initialState).remaining_capacity ≤ 100 :=
  ⟨Reachable.step 70000 70001 Reachable.init,
   ((remaining_capacity_within_bounds 60000).1 _
      (Reachable.step 70000 70001 Reachable.init)).2⟩

/-! ## Set-Report and the simulation runs: auxiliary facts -/

theorem consistent_init : Consistent initialState := by
  unfold Consistent; decide

theorem consistent_step (dwell t_check t_store : Nat) (s : UpsState) (h : Consistent s) :
    Consistent (update_ups_state dwell t_check t_store s) := by
  obtain ⟨h1, h2, h3, h4, h5, h6⟩ := h
  unfold Consistent update_ups_state runtime_block capacity_block ac_block
  split_ifs <;> simp_all <;> omega

theorem reachable_consistent (dwell : Nat) (s : UpsState) (h : Reachable dwell s) :
    Consistent s := by
  induction h with
  | init => exact consistent_init
  | step t_check t_store _ ih => exact consistent_step dwell t_check t_store _ ih

theorem exclusive_step (dwell t_check t_store : Nat) (s : UpsState)
    (h : ¬ (s.UPS.Charging = true ∧ s.UPS.Discharging = true)) :
    ¬ ((update_ups_state dwell t_check t_store s).UPS.Charging = true ∧
       (update_ups_state dwell t_check t_store s).UPS.Discharging = true) := by
  unfold update_ups_state runtime_block capacity_block ac_block
  split_ifs <;> simp_all

theorem reachable_iterate (dwell t_check t_store n : Nat) :
    Reachable dwell ((update_ups_state dwell t_check t_store)^[n] initialState) := by
  induction n with
  | zero => exact Reachable.init
  | succ n ih =>
    rw [Function.iterate_succ_apply']
    exact Reachable.step t_check t_store ih

theorem quiet_step_eq (dwell t_check t_store : Nat) (s : UpsState)
    (h : ¬ dwell_elapsed dwell t_check s) :
    update_ups_state dwell t_check t_store s = capacity_tick s := by
  unfold dwell_elapsed at h
  unfold update_ups_state capacity_tick ac_block
  rw [if_neg h]

theorem quietRun_eq (dwell n : Nat) (s s' : UpsState) (h : QuietRun dwell n s s') :
    s' = capacity_tick^[n] s := by
  induction h with
  | done => rfl
  | step t_check t_store _ hq ih =>
    rw [Function.iterate_succ_apply', quiet_step_eq _ _ _ _ hq, ih]

theorem quietRun_exists (dwell n : Nat) (s : UpsState) : ∃ s', QuietRun dwell n s s' := by
  induction n with
  | zero => exact ⟨s, QuietRun.done s⟩
  | succ n ih =>
    obtain ⟨s', hs'⟩ := ih
    refine ⟨_, QuietRun.step s'.ac_timer 0 hs' ?_⟩
    unfold dwell_elapsed
    have : (s'.ac_timer + 4294967296 - s'.ac_timer) % 4294967296 = 0 := by omega
    omega

theorem iterate_fixed (f : UpsState → UpsState) (s : UpsState) (h : f s = s) (m : Nat) :
    f^[m] s = s := by
  induction m with
  | zero => rfl
  | succ m ih => rw [Function.iterate_succ_apply', ih, h]

theorem set_run_unhandled (report_id : Nat) (report_type : hid_report_type_t)
    (buffer : Buffer) (bufsize : Nat) (h : report_id ∉ setHandledIds) :
    tud_hid_set_report_run report_id report_type buffer bufsize = ⟨[], []⟩ := by
  simp only [setHandledIds, List.mem_cons, List.mem_singleton, List.not_mem_nil, or_false,
    not_or] at h
  unfold tud_hid_set_report_run
  simp [h]

theorem set_decodes_iff (report_id k : Nat) (reads decoded : List Nat) (buffer : Buffer)
    (data_size : Nat) (hne : reads ≠ [])
    (hrun : tud_hid_set_report_run report_id HID_REPORT_TYPE_FEATURE buffer (data_size + 1)
      = if data_size + 1 - 1 ≥ k then ⟨reads, decoded⟩ else ⟨[], []⟩) :
    (tud_hid_set_report_run report_id HID_REPORT_TYPE_FEATURE buffer (data_size + 1)).reads ≠ []
      ↔ k ≤ data_size := by
  rw [hrun]
  simp only [Nat.add_sub_cancel, ge_iff_le]
  split <;> simp_all

/-! ## The simulation step: status invariants -/

/-- C11: Charging and Discharging are never both 1: the start-up state has it so, every
`update_ups_state` step, with or without an AC transition, keeps it so from any state,
and so it holds in every reachable state. -/
theorem charging_discharging_exclusive (dwell : Nat) :
    ¬ (initialState.UPS.Charging = true ∧ initialState.UPS.Discharging = true) ∧
    (∀ s t_check t_store,
      ¬ (s.UPS.Charging = true ∧ s.UPS.Discharging = true) →
      ¬ ((update_ups_state dwell t_check t_store s).UPS.Charging = true ∧
         (update_ups_state dwell t_check t_store s).UPS.Discharging = true)) ∧
    (∀ s, Reachable dwell s → ¬ (s.UPS.Charging = true ∧ s.UPS.Discharging = true)) :=
  ⟨by decide, fun s t_check t_store h => exclusive_step dwell t_check t_store s h,
   fun s h => (reachable_consistent dwell s h).1⟩

/-- Witness of C11: the state after an AC-loss step from start-up. -/
theorem charging_discharging_exclusive_witness :
    Reachable 60000 (update_ups_state 60000 70000 70001 initialState) ∧
    ¬ ((update_ups_state 60000 70000 70001 initialState).UPS.Charging = true ∧
       (update_ups_state 60000 70000 70001 initialState).UPS.Discharging = true) :=
  ⟨Reachable.step 70000 70001 Reachable.init,
   (charging_discharging_exclusive 60000).2.2 _ (Reachable.step 70000 70001 Reachable.init)⟩

/-- C12: in every reachable state, FullyCharged = 1 implies `remaining_capacity = 100` and
Charging = 0. -/
theorem fully_charged_means_full (dwell : Nat) (s : UpsState) (h : Reachable dwell s)
    (hf : s.UPS.FullyCharged = true) :
    s.remaining_capacity = 100 ∧ s.UPS.Charging = false :=
  ⟨((reachable_consistent dwell s h).2.2.2.1 hf).1,
   ((reachable_consistent dwell s h).2.2.2.1 hf).2.1⟩

/-- Witness of C12: the state after 40 steps from start-up is reachable and fully
charged. -/
theorem fully_charged_means_full_witness :
    Reachable 60000 ((update_ups_state 60000 0 0)^[40] initialState) ∧
    ((update_ups_state 60000 0 0)^[40] initialState).UPS.FullyCharged = true ∧
    ((update_ups_state 60000 0 0)^[40] initialState).remaining_capacity = 100 ∧
    ((update_ups_state 60000 0 0)^[40] initialState).UPS.Charging = false :=
  ⟨reachable_iterate 60000 0 0 40, by set_option maxRecDepth 100000 in decide,
   fully_charged_means_full 60000 _ (reachable_iterate 60000 0 0 40)
     (by set_option maxRecDepth 100000 in decide)⟩

/-- C13: in every reachable state, ACPresent = 0 implies Discharging = 1. -/
theorem ac_absent_means_discharging (dwell : Nat) (s : UpsState) (h : Reachable dwell s)
    (ha : s.UPS.ACPresent = false) : s.UPS.Discharging = true :=
  (reachable_consistent dwell s h).2.1 ha

/-- Witness of C13: the state after an AC-loss step from start-up. -/
theorem ac_absent_means_discharging_witness :
    Reachable 60000 (update_ups_state 60000 70000 70001 initialState) ∧
    (update_ups_state 60000 70000 70001 initialState).UPS.ACPresent = false ∧
    (update_ups_state 60000 70000 70001 initialState).UPS.Discharging = true :=
  ⟨Reachable.step 70000 70001 Reachable.init, by decide,
   ac_absent_means_discharging 60000 _ (Reachable.step 70000 70001 Reachable.init)
     (by decide)⟩

/-- C14: in every reachable state, ACPresent = 1 together with `remaining_capacity < 100`
implies Charging = 1. -/
theorem ac_present_below_full_means_charging (dwell : Nat) (s : UpsState)
    (h : Reachable dwell s) (ha : s.UPS.ACPresent = true) (hc : s.remaining_capacity < 100) :
    s.UPS.Charging = true := by
  rcases (reachable_consistent dwell s h).2.2.2.2.1 ha with h1 | h2
  · exact h1
  · omega

/-- Witness of C14: the state after AC loss and AC return from start-up (capacity 60). -/
theorem ac_present_below_full_means_charging_witness :
    Reachable 60000
      (update_ups_state 60000 140002 140003 (update_ups_state 60000 70000 70001 initialState)) ∧
    (update_ups_state 60000 140002 140003
      (update_ups_state 60000 70000 70001 initialState)).UPS.ACPresent = true ∧
    (update_ups_state 60000 140002 140003
      (update_ups_state 60000 70000 70001 initialState)).remaining_capacity < 100 ∧
    (update_ups_state 60000 140002 140003
      (update_ups_state 60000 70000 70001 initialState)).UPS.Charging = true :=
  ⟨Reachable.step 140002 140003 (Reachable.step 70000 70001 Reachable.init), by decide,
   by decide,
   ac_present_below_full_means_charging 60000 _
     (Reachable.step 140002 140003 (Reachable.step 70000 70001 Reachable.init))
     (by decide) (by decide)⟩

/-! ## Set-Report -/

/-- C15 (as stated, it fails): the Get-Report payload of Report ID 18 produced from the
start-up state (delay 300), fed to `tud_hid_set_report_cb` on a state whose delay is 0,
with or without the leading Report ID byte, leaves the delay at 0, not at 300. -/
theorem set_report_round_trip_fails :
    initialState.delay_before_shutdown = 300 ∧
    (tud_hid_set_report_cb zeroDelayState HID_PD_DELAYBE4SHUTDOWN HID_REPORT_TYPE_FEATURE
      (tud_hid_get_report_cb initialState HID_PD_DELAYBE4SHUTDOWN HID_REPORT_TYPE_FEATURE
        (fun _ => 0) 2).2
      (tud_hid_get_report_cb initialState HID_PD_DELAYBE4SHUTDOWN HID_REPORT_TYPE_FEATURE
        (fun _ => 0) 2).1).1.delay_before_shutdown ≠ initialState.delay_before_shutdown ∧
    (tud_hid_set_report_cb zeroDelayState HID_PD_DELAYBE4SHUTDOWN HID_REPORT_TYPE_FEATURE
      (framed HID_PD_DELAYBE4SHUTDOWN
        (tud_hid_get_report_cb initialState HID_PD_DELAYBE4SHUTDOWN HID_REPORT_TYPE_FEATURE
          (fun _ => 0) 2).2)
      ((tud_hid_get_report_cb initialState HID_PD_DELAYBE4SHUTDOWN HID_REPORT_TYPE_FEATURE
        (fun _ => 0) 2).1 + 1)).1.delay_before_shutdown
      ≠ initialState.delay_before_shutdown := by
  decide

/-- C15 (amended): for every settable field (Report IDs 15, 17, 18, 19) and all states
`s` and `t`, feeding the Feature Get-Report payload produced from `s` to
`tud_hid_set_report_cb` for the same Report ID on `t`, with or without the leading Report
ID byte, reads nothing from the payload and leaves `t` as it was. -/
theorem set_report_keeps_state (s t : UpsState) (report_id : Nat) (buffer : Buffer)
    (reqlen : Nat) (h : report_id ∈ settableIds) :
    tud_hid_set_report_cb t report_id HID_REPORT_TYPE_FEATURE
      (tud_hid_get_report_cb s report_id HID_REPORT_TYPE_FEATURE buffer reqlen).2
      (tud_hid_get_report_cb s report_id HID_REPORT_TYPE_FEATURE buffer reqlen).1
      = (t, ⟨[], []⟩) ∧
    tud_hid_set_report_cb t report_id HID_REPORT_TYPE_FEATURE
      (framed report_id
        (tud_hid_get_report_cb s report_id HID_REPORT_TYPE_FEATURE buffer reqlen).2)
      ((tud_hid_get_report_cb s report_id HID_REPORT_TYPE_FEATURE buffer reqlen).1 + 1)
      = (t, ⟨[], []⟩) := by
  have hn : report_id ∉ setHandledIds := by
    intro hm
    have : ∀ id ∈ settableIds, id ∉ setHandledIds := by decide
    exact this report_id h hm
  unfold tud_hid_set_report_cb
  rw [set_run_unhandled _ _ _ _ hn, set_run_unhandled _ _ _ _ hn]
  exact ⟨rfl, rfl⟩

/-- Witness of the amended C15 for Report ID 18. -/
theorem set_report_keeps_state_witness :
    HID_PD_DELAYBE4SHUTDOWN ∈ settableIds ∧
    (tud_hid_set_report_cb zeroDelayState HID_PD_DELAYBE4SHUTDOWN HID_REPORT_TYPE_FEATURE
      (tud_hid_get_report_cb initialState HID_PD_DELAYBE4SHUTDOWN HID_REPORT_TYPE_FEATURE
        (fun _ => 0) 2).2
      (tud_hid_get_report_cb initialState HID_PD_DELAYBE4SHUTDOWN HID_REPORT_TYPE_FEATURE
        (fun _ => 0) 2).1) = (zeroDelayState, ⟨[], []⟩) :=
  ⟨by decide,
   (set_report_keeps_state initialState zeroDelayState HID_PD_DELAYBE4SHUTDOWN (fun _ => 0) 2
      (by decide)).1⟩

/-- C16 (as stated, it fails): in the start-up state a Feature Set-Report for Report ID 15
carrying the value 200, with or without the leading Report ID byte, leaves
`warring_capacity_limit` at 20, not at 100. -/
theorem warning_limit_not_clamped :
    (tud_hid_set_report_cb initialState HID_PD_WARNCAPACITYLIMIT HID_REPORT_TYPE_FEATURE
      (framed HID_PD_WARNCAPACITYLIMIT (fun _ => 200)) 2).1.warring_capacity_limit ≠ 100 ∧
    (tud_hid_set_report_cb initialState HID_PD_WARNCAPACITYLIMIT HID_REPORT_TYPE_FEATURE
      (fun _ => 200) 1).1.warring_capacity_limit ≠ 100 ∧
    (tud_hid_set_report_cb initialState HID_PD_WARNCAPACITYLIMIT HID_REPORT_TYPE_FEATURE
      (framed HID_PD_WARNCAPACITYLIMIT (fun _ => 200)) 2).1.warring_capacity_limit = 20 := by
  decide

/-- C16 (amended): a Set-Report for the warning capacity limit (Report ID 15), whatever
the value it carries (200 or any other), the report type and the length, reads nothing
from the buffer and leaves `warring_capacity_limit`, with the whole state, as it was; no
written value is stored, so none above 100 is. -/
theorem warning_limit_write_ignored (s : UpsState) (report_type : hid_report_type_t)
    (buffer : Buffer) (bufsize : Nat) :
    (tud_hid_set_report_cb s HID_PD_WARNCAPACITYLIMIT report_type buffer
      bufsize).1.warring_capacity_limit = s.warring_capacity_limit ∧
    tud_hid_set_report_cb s HID_PD_WARNCAPACITYLIMIT report_type buffer bufsize
      = (s, ⟨[], []⟩) := by
  have hn : HID_PD_WARNCAPACITYLIMIT ∉ setHandledIds := by decide
  unfold tud_hid_set_report_cb
  rw [set_run_unhandled _ _ _ _ hn]
  exact ⟨rfl, rfl⟩

/-- C17: for every Report ID without a `case` in the switch of `tud_hid_set_report_cb`,
every report type and every buffer, Set-Report leaves the whole power state unchanged
(and reads nothing). -/
theorem set_unknown_id_keeps_state (s : UpsState) (report_id : Nat)
    (report_type : hid_report_type_t) (buffer : Buffer) (bufsize : Nat)
    (h : report_id ∉ setHandledIds) :
    tud_hid_set_report_cb s report_id report_type buffer bufsize = (s, ⟨[], []⟩) := by
  unfold tud_hid_set_report_cb
  rw [set_run_unhandled _ _ _ _ h]

/-- Witness of C17: Report ID 0x15 has no case. -/
theorem set_unknown_id_keeps_state_witness :
    HID_PD_CURRENT ∉ setHandledIds ∧
    tud_hid_set_report_cb initialState HID_PD_CURRENT HID_REPORT_TYPE_FEATURE (fun _ => 9) 8
      = (initialState, ⟨[], []⟩) :=
  ⟨by decide,
   set_unknown_id_keeps_state initialState HID_PD_CURRENT HID_REPORT_TYPE_FEATURE
     (fun _ => 9) 8 (by decide)⟩

/-- C18 (the code breaks it): for the Report IDs 1, 2, 3, 6, 11 that
`tud_hid_set_report_cb` handles, the descriptor declares Feature reports of 8, 8, 8, 8 and
16 bits and `tud_hid_get_report_cb` produces 1, 1, 1, 1 and 2 bytes, but the handler
decodes only when `data_size = bufsize - 1` is at least 4, 5, 6, 11 and 28; the one-byte
report of ID 1 behind its Report ID byte (`bufsize = 2`) is not decoded. -/
theorem set_report_sizes_disagree (s : UpsState) (buffer : Buffer) :
    setHandledIds.map (fun id => reportBits hid_report_descriptor MainKind.Feature id)
      = [8, 8, 8, 8, 16] ∧
    setHandledIds.map
        (fun id => (tud_hid_get_report_cb s id HID_REPORT_TYPE_FEATURE buffer 64).1)
      = [1, 1, 1, 1, 2] ∧
    (∀ data_size,
      (tud_hid_set_report_cb s 0x01 HID_REPORT_TYPE_FEATURE buffer (data_size + 1)).2.reads ≠ []
        ↔ 4 ≤ data_size) ∧
    (∀ data_size,
      (tud_hid_set_report_cb s 0x02 HID_REPORT_TYPE_FEATURE buffer (data_size + 1)).2.reads ≠ []
        ↔ 5 ≤ data_size) ∧
    (∀ data_size,
      (tud_hid_set_report_cb s 0x03 HID_REPORT_TYPE_FEATURE buffer (data_size + 1)).2.reads ≠ []
        ↔ 6 ≤ data_size) ∧
    (∀ data_size,
      (tud_hid_set_report_cb s 0x06 HID_REPORT_TYPE_FEATURE buffer (data_size + 1)).2.reads ≠ []
        ↔ 11 ≤ data_size) ∧
    (∀ data_size,
      (tud_hid_set_report_cb s 0x0B HID_REPORT_TYPE_FEATURE buffer (data_size + 1)).2.reads ≠ []
        ↔ 28 ≤ data_size) ∧
    tud_hid_set_report_cb s HID_PD_IPRODUCT HID_REPORT_TYPE_FEATURE
      (framed HID_PD_IPRODUCT
        (tud_hid_get_report_cb s HID_PD_IPRODUCT HID_REPORT_TYPE_FEATURE buffer 64).2) 2
      = (s, ⟨[], []⟩) := by
  refine ⟨?_, rfl, ?_, ?_, ?_, ?_, ?_, rfl⟩
  · set_option maxRecDepth 100000 in decide
  · intro n; exact set_decodes_iff 0x01 4 _ _ buffer n (by simp) rfl
  · intro n; exact set_decodes_iff 0x02 5 _ _ buffer n (by simp) rfl
  · intro n; exact set_decodes_iff 0x03 6 _ _ buffer n (by simp) rfl
  · intro n; exact set_decodes_iff 0x06 11 _ _ buffer n (by simp) rfl
  · intro n; exact set_decodes_iff 0x0B 28 _ _ buffer n (by simp) rfl

/-! ## The simulation step: scenarios -/

/-- C19 (as stated, it fails): the start-up state with `remaining_capacity` set to 0 has
Charging = 1 and ACPresent = 1, and a step whose dwell has elapsed does not decrease
`remaining_capacity` by 1: it stays 0. -/
theorem ac_loss_at_empty_keeps_capacity :
    emptyBatteryState.UPS.Charging = true ∧ emptyBatteryState.UPS.ACPresent = true ∧
    dwell_elapsed 60000 70000 emptyBatteryState ∧
    (update_ups_state 60000 70000 70001 emptyBatteryState).remaining_capacity + 1
      ≠ emptyBatteryState.remaining_capacity ∧
    (update_ups_state 60000 70000 70001 emptyBatteryState).remaining_capacity = 0 := by
  decide

/-- C19 (amended): for every state with Charging = 1 and ACPresent = 1, an
`update_ups_state` step whose AC dwell has elapsed sets ACPresent = 0, Discharging = 1,
Charging = 0 together, and the capacity tick that follows decreases `remaining_capacity`
by exactly 1 when it is above 0, as it is in every reachable state with Charging = 1; at 0
it stays 0. -/
theorem ac_loss_triggers_discharge (dwell t_check t_store : Nat) (s : UpsState)
    (hc : s.UPS.Charging = true) (ha : s.UPS.ACPresent = true)
    (hd : dwell_elapsed dwell t_check s) (hr : s.remaining_capacity < 256) :
    ((ac_block dwell t_check t_store s).UPS.ACPresent = false ∧
     (ac_block dwell t_check t_store s).UPS.Discharging = true ∧
     (ac_block dwell t_check t_store s).UPS.Charging = false) ∧
    ((update_ups_state dwell t_check t_store s).UPS.ACPresent = false ∧
     (update_ups_state dwell t_check t_store s).UPS.Discharging = true ∧
     (update_ups_state dwell t_check t_store s).UPS.Charging = false) ∧
    (0 < s.remaining_capacity →
      (update_ups_state dwell t_check t_store s).remaining_capacity + 1
        = s.remaining_capacity) ∧
    (s.remaining_capacity = 0 →
      (update_ups_state dwell t_check t_store s).remaining_capacity = 0) ∧
    (Reachable dwell s → 0 < s.remaining_capacity) := by
  unfold dwell_elapsed at hd
  have hac : ac_block dwell t_check t_store s =
      { s with
        UPS := { s.UPS with ACPresent := false, Charging := false, Discharging := true },
        ac_timer := t_store } := by
    unfold ac_block
    rw [if_pos hd, ha]
    rfl
  refine ⟨by rw [hac]; exact ⟨rfl, rfl, rfl⟩, ?_, ?_, ?_,
    fun hre => (reachable_consistent dwell s hre).2.2.2.2.2 hc⟩
  · unfold update_ups_state runtime_block capacity_block
    rw [hac]
    split_ifs <;> simp_all
  · intro hpos
    unfold update_ups_state runtime_block capacity_block
    rw [hac]
    split_ifs <;> simp_all <;> omega
  · intro hz
    unfold update_ups_state runtime_block capacity_block
    rw [hac]
    split_ifs <;> simp_all

/-- Witness of the amended C19: AC loss in the start-up state takes the capacity from 60
to 59. -/
theorem ac_loss_triggers_discharge_witness :
    initialState.UPS.Charging = true ∧ initialState.UPS.ACPresent = true ∧
    dwell_elapsed 60000 70000 initialState ∧
    (update_ups_state 60000 70000 70001 initialState).remaining_capacity + 1
      = initialState.remaining_capacity :=
  ⟨rfl, rfl, by decide,
   (ac_loss_triggers_discharge 60000 70000 70001 initialState rfl rfl (by decide)
      (by decide)).2.2.1 (by decide)⟩

/-- C20: from the start-up state (`remaining_capacity = 60`, ACPresent = 1, Charging = 1)
there is a number `n` of consecutive `update_ups_state` steps without AC transition (such
runs exist) after which `remaining_capacity = 100`, FullyCharged = 1 and Charging = 0, and
every further run of such steps leaves these three values as they are. -/
theorem full_charge_convergence (dwell : Nat) :
    (initialState.remaining_capacity = 60 ∧ initialState.UPS.ACPresent = true ∧
      initialState.UPS.Charging = true) ∧
    ∃ n, (∃ s, QuietRun dwell n initialState s) ∧
      ∀ s, QuietRun dwell n initialState s →
        (s.remaining_capacity = 100 ∧ s.UPS.FullyCharged = true ∧ s.UPS.Charging = false) ∧
        ∀ m s', QuietRun dwell m s s' →
          s'.remaining_capacity = 100 ∧ s'.UPS.FullyCharged = true ∧
          s'.UPS.Charging = false := by
  have hfull : (capacity_tick^[40] initialState).remaining_capacity = 100 ∧
      (capacity_tick^[40] initialState).UPS.FullyCharged = true ∧
      (capacity_tick^[40] initialState).UPS.Charging = false := by
    set_option maxRecDepth 100000 in decide
  have hfix : capacity_tick (capacity_tick^[40] initialState)
      = capacity_tick^[40] initialState := by
    set_option maxRecDepth 100000 in decide
  refine ⟨by decide, 40, quietRun_exists dwell 40 initialState, ?_⟩
  intro s hs
  have hs40 := quietRun_eq dwell 40 _ _ hs
  subst hs40
  refine ⟨hfull, ?_⟩
  intro m s' hm
  have hs' := quietRun_eq dwell m _ _ hm
  rw [iterate_fixed capacity_tick _ hfix m] at hs'
  subst hs'
  exact hfull

/-! ## Frame, ranges and runs: auxiliary facts -/

theorem frame_step (dwell t_check t_store : Nat) (s : UpsState) :
    (update_ups_state dwell t_check t_store s).manufacture_date = s.manufacture_date ∧
    (update_ups_state dwell t_check t_store s).config_voltage = s.config_voltage ∧
    (update_ups_state dwell t_check t_store s).voltage = s.voltage ∧
    (update_ups_state dwell t_check t_store s).full_charge_capacity = s.full_charge_capacity ∧
    (update_ups_state dwell t_check t_store s).warring_capacity_limit
      = s.warring_capacity_limit ∧
    (update_ups_state dwell t_check t_store s).remaining_capacity_limit
      = s.remaining_capacity_limit ∧
    (update_ups_state dwell t_check t_store s).delay_before_shutdown
      = s.delay_before_shutdown ∧
    (update_ups_state dwell t_check t_store s).delay_before_reboot = s.delay_before_reboot ∧
    (update_ups_state dwell t_check t_store s).design_capacity = s.design_capacity ∧
    (update_ups_state dwell t_check t_store s).avg_time_to_full = s.avg_time_to_full ∧
    (update_ups_state dwell t_check t_store s).avg_time_to_empty = s.avg_time_to_empty := by
  unfold update_ups_state runtime_block capacity_block ac_block
  split_ifs <;> exact ⟨rfl, rfl, rfl, rfl, rfl, rfl, rfl, rfl, rfl, rfl, rfl⟩

theorem runtime_step (dwell t_check t_store : Nat) (s : UpsState) :
    (update_ups_state dwell t_check t_store s).runtime_to_empty
      = (update_ups_state dwell t_check t_store s).remaining_capacity * 72 % 65536 := by
  rfl

theorem reachable_constants (dwell : Nat) (s : UpsState) (h : Reachable dwell s) :
    s.manufacture_date = 12345 ∧ s.config_voltage = 12000 ∧ s.voltage = 11850 ∧
    s.full_charge_capacity = 10000 ∧ s.warring_capacity_limit = 20 ∧
    s.remaining_capacity_limit = 10 ∧ s.delay_before_shutdown = 300 ∧
    s.delay_before_reboot = 60 ∧ s.design_capacity = 100 ∧ s.avg_time_to_full = 7200 ∧
    s.avg_time_to_empty = 14400 ∧ s.runtime_to_empty < 65536 := by
  induction h with
  | init => decide
  | step t_check t_store _ ih =>
    obtain ⟨f1, f2, f3, f4, f5, f6, f7, f8, f9, f10, f11⟩ := frame_step dwell t_check t_store _
    obtain ⟨h1, h2, h3, h4, h5, h6, h7, h8, h9, h10, h11, _⟩ := ih
    refine ⟨f1.trans h1, f2.trans h2, f3.trans h3, f4.trans h4, f5.trans h5, f6.trans h6,
      f7.trans h7, f8.trans h8, f9.trans h9, f10.trans h10, f11.trans h11, ?_⟩
    rw [runtime_step]
    exact Nat.mod_lt _ (by decide)

theorem reachable_shape (dwell : Nat) (s : UpsState) (h : Reachable dwell s) :
    s = { initialState with
          UPS := s.UPS, remaining_capacity := s.remaining_capacity,
          runtime_to_empty := s.runtime_to_empty, ac_timer := s.ac_timer } := by
  obtain ⟨h1, h2, h3, h4, h5, h6, h7, h8, h9, h10, h11, _⟩ := reachable_constants dwell s h
  obtain ⟨ups, md, cv, v, cap, rt, fcc, wcl, rcl, dbs, dbr, dc, attf, atte, timer⟩ := s
  simp only at h1 h2 h3 h4 h5 h6 h7 h8 h9 h10 h11
  subst h1 h2 h3 h4 h5 h6 h7 h8 h9 h10 h11
  rfl

theorem reachable_from (dwell t_check t_store n : Nat) (s : UpsState) (h : Reachable dwell s) :
    Reachable dwell ((update_ups_state dwell t_check t_store)^[n] s) := by
  induction n with
  | zero => exact h
  | succ n ih =>
    rw [Function.iterate_succ_apply']
    exact Reachable.step t_check t_store ih

theorem fully_discharged_step (dwell t_check t_store : Nat) (s : UpsState)
    (h : s.UPS.FullyDischarged = true) :
    (update_ups_state dwell t_check t_store s).UPS.FullyDischarged = true := by
  unfold update_ups_state runtime_block capacity_block ac_block
  split_ifs <;> simp_all [one_bit]

theorem storeAll_same (stores : List (Nat × Nat)) (b1 b2 : Buffer) (j : Nat)
    (h : j ∈ stores.map Prod.fst) : storeAll b1 stores j = storeAll b2 stores j := by
  induction stores generalizing b1 b2 with
  | nil => simp at h
  | cons p rest ih =>
    obtain ⟨i, v⟩ := p
    simp only [storeAll]
    by_cases hr : j ∈ rest.map Prod.fst
    · exact ih _ _ hr
    · have hj : j = i := by
        simp only [List.map_cons, List.mem_cons] at h
        rcases h with h | h
        · exact h
        · exact absurd h hr
      have hno : ∀ p ∈ rest, p.1 ≠ j := by
        intro p hp hpj
        exact hr (hpj ▸ List.mem_map_of_mem _ hp)
      rw [storeAll_other rest _ j hno, storeAll_other rest _ j hno]
      simp [store, hj]

theorem payload_one (s : UpsState) (id b : Nat)
    (hrun : tud_hid_get_report_run s id HID_REPORT_TYPE_FEATURE 64 = serve 64 1 [(0, b)]) :
    payload (tud_hid_get_report_cb s id HID_REPORT_TYPE_FEATURE (fun _ => 0) 64) = [b] := by
  simp [payload, tud_hid_get_report_cb, hrun, serve, storeAll, store, List.range,
    List.range.loop]

theorem payload_two (s : UpsState) (id b0 b1 : Nat)
    (hrun : tud_hid_get_report_run s id HID_REPORT_TYPE_FEATURE 64
      = serve 64 2 [(0, b0), (1, b1)]) :
    payload (tud_hid_get_report_cb s id HID_REPORT_TYPE_FEATURE (fun _ => 0) 64)
      = [b0, b1] := by
  simp [payload, tud_hid_get_report_cb, hrun, serve, storeAll, store, List.range,
    List.range.loop]

theorem within_u8 (s : UpsState) (id b : Nat) (lo hi : Int)
    (hrun : tud_hid_get_report_run s id HID_REPORT_TYPE_FEATURE 64 = serve 64 1 [(0, b)])
    (hr : logicalRange hid_report_descriptor id = (lo, hi))
    (h0 : 0 ≤ lo) (hlo : lo ≤ (b : Int)) (hhi : (b : Int) ≤ hi) :
    WithinLogicalRange s id := by
  unfold WithinLogicalRange
  rw [hr]
  have hd : decide (lo < 0) = false := by simp; omega
  simp only [encodedValue, hd, payload_one s id b hrun, unsignedValue]
  constructor <;> simp <;> omega

theorem within_u16 (s : UpsState) (id x : Nat) (lo hi : Int)
    (hrun : tud_hid_get_report_run s id HID_REPORT_TYPE_FEATURE 64
      = serve 64 2 [(0, x &&& 0xFF), (1, (x >>> 8) &&& 0xFF)])
    (hx : x < 65536)
    (hr : logicalRange hid_report_descriptor id = (lo, hi))
    (h0 : 0 ≤ lo) (hlo : lo ≤ (x : Int)) (hhi : (x : Int) ≤ hi) :
    WithinLogicalRange s id := by
  unfold WithinLogicalRange
  rw [hr]
  have hd : decide (lo < 0) = false := by simp; omega
  simp only [encodedValue, hd, payload_two s id _ _ hrun, unsignedValue, low_byte,
    high_byte x hx]
  constructor <;> simp <;> omega

theorem within_i16 (s : UpsState) (id : Nat) (d lo hi : Int)
    (hrun : tud_hid_get_report_run s id HID_REPORT_TYPE_FEATURE 64
      = serve 64 2 [(0, int_bits d &&& 0xFF), (1, int_bits (d >>> (8 : Nat)) &&& 0xFF)])
    (hd1 : -32768 ≤ d) (hd2 : d ≤ 32767)
    (hr : logicalRange hid_report_descriptor id = (lo, hi))
    (h0 : lo < 0) (hlo : lo ≤ d) (hhi : d ≤ hi) :
    WithinLogicalRange s id := by
  unfold WithinLogicalRange
  rw [hr]
  have hd : decide (lo < 0) = true := by simp; omega
  have hv : signedValue [(d % 256).toNat, (d / 256 % 256).toNat] = d := by
    simp only [signedValue, unsignedValue, List.length_cons, List.length_nil]
    split_ifs with hc
    · omega
    · simp only [ne_eq, reduceCtorEq, not_false_eq_true, and_true] at hc
      omega
  have hp := payload_two s id _ _ hrun
  rw [int_low_byte, int_high_byte] at hp
  unfold encodedValue
  rw [hd, hp, if_pos rfl, hv]
  exact ⟨hlo, hhi⟩

set_option maxRecDepth 100000 in
set_option maxHeartbeats 1000000 in
theorem within_of_shape (ups : PresentStatus) (cap rt timer : Nat) (hcap : cap ≤ 100)
    (hrt : rt < 65536) (id : Nat) (hid : id ∈ handledIds) (h14 : id ≠ 14) (h7 : id ≠ 7) :
    WithinLogicalRange
      { initialState with
        UPS := ups, remaining_capacity := cap, runtime_to_empty := rt, ac_timer := timer }
      id := by
  simp only [handledIds, HID_PD_IPRODUCT, HID_PD_SERIAL, HID_PD_MANUFACTURER,
    HID_PD_RECHARGEABLE, HID_PD_PRESENTSTATUS, HID_PD_MANUFACTUREDATE, HID_PD_CONFIGVOLTAGE,
    HID_PD_VOLTAGE, HID_PD_REMAININGCAPACITY, HID_PD_RUNTIMETOEMPTY,
    HID_PD_FULLCHARGECAPACITY, HID_PD_WARNCAPACITYLIMIT, HID_PD_CPCTYGRANULARITY1,
    HID_PD_REMNCAPACITYLIMIT, HID_PD_DELAYBE4SHUTDOWN, HID_PD_DELAYBE4REBOOT,
    HID_PD_AUDIBLEALARMCTRL, HID_PD_CAPACITYMODE, HID_PD_DESIGNCAPACITY,
    HID_PD_CPCTYGRANULARITY2, HID_PD_AVERAGETIME2FULL, HID_PD_AVERAGETIME2EMPTY,
    HID_PD_IDEVICECHEMISTRY, HID_PD_IOEMINFORMATION, List.mem_cons, List.mem_singleton,
    List.not_mem_nil, or_false] at hid
  rcases hid with rfl | rfl | rfl | rfl | rfl | rfl | rfl | rfl | rfl | rfl | rfl | rfl | rfl |
    rfl | rfl | rfl | rfl | rfl | rfl | rfl | rfl | rfl | rfl | rfl
  · exact within_u8 _ 1 2 0 255 rfl (by decide) (by decide) (by decide) (by decide)
  · exact within_u8 _ 2 3 0 255 rfl (by decide) (by decide) (by decide) (by decide)
  · exact within_u8 _ 3 1 0 255 rfl (by decide) (by decide) (by decide) (by decide)
  · exact within_u8 _ 6 1 0 255 rfl (by decide) (by decide) (by decide) (by decide)
  · exact absurd rfl h7
  · exact within_u16 _ 9 12345 0 65535 rfl (by decide) (by decide) (by decide) (by decide)
      (by decide)
  · exact within_u16 _ 10 12000 0 65535 rfl (by decide) (by decide) (by decide) (by decide)
      (by decide)
  · exact within_u16 _ 11 11850 0 65535 rfl (by decide) (by decide) (by decide) (by decide)
      (by decide)
  · exact within_u8 _ 12 (cap % 256) 0 100 rfl (by decide) (by decide) (by omega) (by omega)
  · exact within_u16 _ 13 rt 0 65535 rfl hrt (by decide) (by decide) (by omega) (by omega)
  · exact absurd rfl h14
  · exact within_u8 _ 15 20 0 100 rfl (by decide) (by decide) (by decide) (by decide)
  · exact within_u8 _ 16 1 0 100 rfl (by decide) (by decide) (by decide) (by decide)
  · exact within_u8 _ 17 10 0 100 rfl (by decide) (by decide) (by decide) (by decide)
  · exact within_i16 _ 18 300 (-32768) 32767 rfl (by decide) (by decide) (by decide)
      (by decide) (by decide) (by decide)
  · exact within_i16 _ 19 60 (-32768) 32767 rfl (by decide) (by decide) (by decide)
      (by decide) (by decide) (by decide)
  · exact within_u8 _ 20 2 1 3 rfl (by decide) (by decide) (by decide) (by decide)
  · exact within_u8 _ 22 1 0 255 rfl (by decide) (by decide) (by decide) (by decide)
  · exact within_u8 _ 23 100 0 100 rfl (by decide) (by decide) (by decide) (by decide)
  · exact within_u8 _ 24 0 0 100 rfl (by decide) (by decide) (by decide) (by decide)
  · exact within_u16 _ 26 7200 0 65535 rfl (by decide) (by decide) (by decide) (by decide)
      (by decide)
  · exact within_u16 _ 28 14400 0 65535 rfl (by decide) (by decide) (by decide) (by decide)
      (by decide)
  · exact within_u8 _ 31 4 0 255 rfl (by decide) (by decide) (by decide) (by decide)
  · exact within_u8 _ 32 5 0 255 rfl (by decide) (by decide) (by decide) (by decide)

theorem fully_charged_exit (dwell : Nat) (hdw : dwell + 1 < 4294967296) (s : UpsState)
    (hs : Consistent s) (hf : s.UPS.FullyCharged = true) :
    (update_ups_state dwell (s.ac_timer + dwell + 1) 0 s).UPS.FullyCharged = false := by
  obtain ⟨_, h2, _, h4, _, _⟩ := hs
  obtain ⟨hcap, hch, hdis⟩ := h4 hf
  have hac : s.UPS.ACPresent = true := by
    cases hA : s.UPS.ACPresent
    · rw [h2 hA] at hdis; cases hdis
    · rfl
  have hel : (s.ac_timer + dwell + 1 + 4294967296 - s.ac_timer) % 4294967296 > dwell := by
    omega
  unfold update_ups_state runtime_block capacity_block ac_block
  rw [if_pos hel]
  simp [hac, hcap]

/-! ## The simulation step: rules -/

/-- C21 (as stated, it fails): in a state with FullyCharged = 1 and AC absent, the AC
transition that makes AC present sets Charging = 1; Charging does not stay 0, neither
after the transition block nor at the end of the step. -/
theorem ac_return_ignores_fully_charged :
    fullOnBatteryState.UPS.FullyCharged = true ∧ fullOnBatteryState.UPS.ACPresent = false ∧
    fullOnBatteryState.UPS.Charging = false ∧ dwell_elapsed 60000 70000 fullOnBatteryState ∧
    (ac_block 60000 70000 70001 fullOnBatteryState).UPS.ACPresent = true ∧
    (ac_block 60000 70000 70001 fullOnBatteryState).UPS.Charging ≠ false ∧
    (update_ups_state 60000 70000 70001 fullOnBatteryState).UPS.Charging ≠ false := by
  decide

/-- C21 (amended): for every state, when the AC transition in `update_ups_state` makes AC
present it sets Charging = 1 and Discharging = 0, whether or not FullyCharged is already 1
(no reachable state has FullyCharged = 1 while AC is absent); when it makes AC absent it
sets Discharging = 1 and Charging = 0. -/
theorem ac_transition_rule (dwell t_check t_store : Nat) (s : UpsState)
    (hd : dwell_elapsed dwell t_check s) :
    (s.UPS.ACPresent = false →
      (ac_block dwell t_check t_store s).UPS.ACPresent = true ∧
      (ac_block dwell t_check t_store s).UPS.Charging = true ∧
      (ac_block dwell t_check t_store s).UPS.Discharging = false) ∧
    (s.UPS.ACPresent = true →
      (ac_block dwell t_check t_store s).UPS.ACPresent = false ∧
      (ac_block dwell t_check t_store s).UPS.Discharging = true ∧
      (ac_block dwell t_check t_store s).UPS.Charging = false) ∧
    (Reachable dwell s → s.UPS.ACPresent = false → s.UPS.FullyCharged = false) := by
  unfold dwell_elapsed at hd
  refine ⟨?_, ?_, ?_⟩
  · intro ha
    unfold ac_block
    rw [if_pos hd, ha]
    exact ⟨rfl, rfl, rfl⟩
  · intro ha
    unfold ac_block
    rw [if_pos hd, ha]
    exact ⟨rfl, rfl, rfl⟩
  · intro hre ha
    obtain ⟨_, h2, _, h4, _, _⟩ := reachable_consistent dwell s hre
    cases hf : s.UPS.FullyCharged
    · rfl
    · have := (h4 hf).2.2
      rw [h2 ha] at this
      cases this

/-- Witness of the amended C21: AC loss, then AC return, from start-up. -/
theorem ac_transition_rule_witness :
    dwell_elapsed 60000 140002 (update_ups_state 60000 70000 70001 initialState) ∧
    (update_ups_state 60000 70000 70001 initialState).UPS.ACPresent = false ∧
    (ac_block 60000 140002 140003
      (update_ups_state 60000 70000 70001 initialState)).UPS.Charging = true :=
  ⟨by decide, by decide,
   ((ac_transition_rule 60000 140002 140003 (update_ups_state 60000 70000 70001 initialState)
      (by decide)).1 (by decide)).2.1⟩

/-- C22: for every state with `remaining_capacity <= 100`, one capacity tick changes
`remaining_capacity` by +1 when Charging = 1 and the capacity is below 100, by -1 when
that does not apply and Discharging = 1 and the capacity is above 0, and leaves it (and
all flags) otherwise; in the increment FullyCharged becomes 1 and Charging 0 exactly when
100 is reached, and FullyCharged becomes 0 on every decrement. -/
theorem capacity_tick_rule (s : UpsState) (h : s.remaining_capacity ≤ 100) :
    (s.UPS.Charging = true ∧ s.remaining_capacity < 100 →
      (capacity_tick s).remaining_capacity = s.remaining_capacity + 1 ∧
      (s.remaining_capacity + 1 = 100 →
        (capacity_tick s).UPS.FullyCharged = true ∧ (capacity_tick s).UPS.Charging = false) ∧
      (s.remaining_capacity + 1 < 100 →
        (capacity_tick s).UPS.FullyCharged = s.UPS.FullyCharged ∧
        (capacity_tick s).UPS.Charging = true)) ∧
    (¬ (s.UPS.Charging = true ∧ s.remaining_capacity < 100) →
      s.UPS.Discharging = true ∧ s.remaining_capacity > 0 →
      (capacity_tick s).remaining_capacity + 1 = s.remaining_capacity ∧
      (capacity_tick s).UPS.FullyCharged = false ∧
      (capacity_tick s).UPS.Charging = s.UPS.Charging) ∧
    (¬ (s.UPS.Charging = true ∧ s.remaining_capacity < 100) →
      ¬ (s.UPS.Discharging = true ∧ s.remaining_capacity > 0) →
      (capacity_tick s).remaining_capacity = s.remaining_capacity ∧
      (capacity_tick s).UPS = s.UPS) := by
  refine ⟨?_, ?_, ?_⟩
  · intro hc
    unfold capacity_tick runtime_block capacity_block
    rw [if_pos hc]
    obtain ⟨hch, hlt⟩ := hc
    split_ifs with h1
    · refine ⟨?_, fun _ => ⟨rfl, rfl⟩, fun h2 => ?_⟩
      · show (s.remaining_capacity + 1) % 256 = s.remaining_capacity + 1
        omega
      · omega
    · refine ⟨?_, fun h2 => ?_, fun _ => ⟨rfl, hch⟩⟩
      · show (s.remaining_capacity + 1) % 256 = s.remaining_capacity + 1
        omega
      · omega
  · intro hn hdc
    unfold capacity_tick runtime_block capacity_block
    rw [if_neg hn, if_pos hdc]
    split_ifs
    · refine ⟨?_, rfl, rfl⟩
      show (s.remaining_capacity + 255) % 256 + 1 = s.remaining_capacity
      omega
    · refine ⟨?_, rfl, rfl⟩
      show (s.remaining_capacity + 255) % 256 + 1 = s.remaining_capacity
      omega
  · intro hn hnd
    unfold capacity_tick runtime_block capacity_block
    rw [if_neg hn, if_neg hnd]
    exact ⟨rfl, rfl⟩

/-- Witness of C22: the tick from capacity 99 while charging reaches 100 and sets
FullyCharged. -/
theorem capacity_tick_rule_witness :
    ({ initialState with remaining_capacity := 99 } : UpsState).remaining_capacity ≤ 100 ∧
    (capacity_tick { initialState with remaining_capacity := 99 }).remaining_capacity = 100 ∧
    (capacity_tick { initialState with remaining_capacity := 99 }).UPS.FullyCharged = true :=
  ⟨by decide,
   ((capacity_tick_rule { initialState with remaining_capacity := 99 } (by decide)).1
      (by decide)).1,
   (((capacity_tick_rule { initialState with remaining_capacity := 99 } (by decide)).1
      (by decide)).2.1 (by decide)).1⟩

/-- C23: after every `update_ups_state` step, `runtime_to_empty` equals 72 times the
post-step `remaining_capacity` exactly: the capacity is an 8-bit value, so the product is
below 65536 and is not truncated, and for a capacity of at most 100 the result is at most
7200. -/
theorem runtime_is_72_times_capacity (dwell t_check t_store : Nat) (s : UpsState)
    (h : s.remaining_capacity < 256) :
    (update_ups_state dwell t_check t_store s).remaining_capacity < 256 ∧
    72 * (update_ups_state dwell t_check t_store s).remaining_capacity < 65536 ∧
    (update_ups_state dwell t_check t_store s).runtime_to_empty
      = 72 * (update_ups_state dwell t_check t_store s).remaining_capacity ∧
    ((update_ups_state dwell t_check t_store s).remaining_capacity ≤ 100 →
      (update_ups_state dwell t_check t_store s).runtime_to_empty ≤ 7200) := by
  have hlt : (update_ups_state dwell t_check t_store s).remaining_capacity < 256 := by
    have hac : (ac_block dwell t_check t_store s).remaining_capacity
        = s.remaining_capacity := by
      unfold ac_block; split_ifs <;> rfl
    unfold update_ups_state runtime_block capacity_block
    simp only [hac]
    split_ifs <;> simp <;> omega
  have hrt : (update_ups_state dwell t_check t_store s).runtime_to_empty
      = 72 * (update_ups_state dwell t_check t_store s).remaining_capacity := by
    rw [runtime_step dwell t_check t_store s]
    omega
  refine ⟨hlt, by omega, hrt, fun h100 => ?_⟩
  rw [hrt]
  omega

/-- Witness of C23: AC loss at start-up leaves capacity 59 and run time 4248. -/
theorem runtime_is_72_times_capacity_witness :
    initialState.remaining_capacity < 256 ∧
    (update_ups_state 60000 70000 70001 initialState).runtime_to_empty
      = 72 * (update_ups_state 60000 70000 70001 initialState).remaining_capacity :=
  ⟨by decide, (runtime_is_72_times_capacity 60000 70000 70001 initialState (by decide)).2.2.1⟩

/-! ## The descriptor against the state and the string table -/

/-- C24 (the code breaks it): the logical range in effect for the Feature field of Report
ID 14 is 0..100, but in the start-up state, which is reachable, the Get-Report for ID 14
encodes `full_charge_capacity = 10000`.  For every other Report ID the callback serves,
the encoded value lies within the declared range in every reachable state; the fields of
Report ID 7 are one bit wide with range 0..1. -/
theorem full_charge_capacity_outside_logical_range (dwell : Nat) :
    logicalRange hid_report_descriptor HID_PD_FULLCHARGECAPACITY = (0, 100) ∧
    Reachable dwell initialState ∧
    encodedValue
      (tud_hid_get_report_cb initialState HID_PD_FULLCHARGECAPACITY HID_REPORT_TYPE_FEATURE
        (fun _ => 0) 64) false = 10000 ∧
    ¬ WithinLogicalRange initialState HID_PD_FULLCHARGECAPACITY ∧
    (∀ s, Reachable dwell s → ∀ id ∈ handledIds, id ≠ 14 → id ≠ 7 →
      WithinLogicalRange s id) ∧
    (∀ f ∈ fieldsOf hid_report_descriptor MainKind.Feature HID_PD_PRESENTSTATUS,
      (f.report_size = 1 ∨ f.usages = []) ∧ f.logical_minimum = 0 ∧
      f.logical_maximum = 1) := by
  refine ⟨?_, Reachable.init, ?_, ?_, ?_, ?_⟩
  · set_option maxRecDepth 100000 in decide
  · decide
  · set_option maxRecDepth 100000 in decide
  · intro s hs id hid h14 h7
    have e := reachable_shape dwell s hs
    rw [e]
    exact within_of_shape s.UPS s.remaining_capacity s.runtime_to_empty s.ac_timer
      (reachable_capacity dwell s hs)
      (reachable_constants dwell s hs).2.2.2.2.2.2.2.2.2.2.2 id hid h14 h7
  · set_option maxRecDepth 100000 in decide

/-- C25: in `hid_report_descriptor`, within Report ID 7 the Input fields and the Feature
fields declare the same usages in the same order at the same bit offsets, fourteen
one-bit flags followed by two padding bits each, and both reports are 16 bits wide. -/
theorem present_status_input_mirrors_feature :
    layoutFrom 0 (fieldsOf hid_report_descriptor MainKind.Input HID_PD_PRESENTSTATUS)
      = layoutFrom 0 (fieldsOf hid_report_descriptor MainKind.Feature HID_PD_PRESENTSTATUS) ∧
    (fieldsOf hid_report_descriptor MainKind.Input HID_PD_PRESENTSTATUS).map
        (fun f => (f.usage_page, f.usages))
      = (fieldsOf hid_report_descriptor MainKind.Feature HID_PD_PRESENTSTATUS).map
        (fun f => (f.usage_page, f.usages)) ∧
    (fieldsOf hid_report_descriptor MainKind.Input HID_PD_PRESENTSTATUS).map
        (fun f => f.report_size * f.report_count)
      = [1, 1, 1, 1, 1, 1, 1, 1, 1, 1, 1, 1, 1, 1, 2] ∧
    (fieldsOf hid_report_descriptor MainKind.Feature HID_PD_PRESENTSTATUS).map
        (fun f => f.report_size * f.report_count)
      = [1, 1, 1, 1, 1, 1, 1, 1, 1, 1, 1, 1, 1, 1, 2] ∧
    reportBits hid_report_descriptor MainKind.Input HID_PD_PRESENTSTATUS = 16 ∧
    reportBits hid_report_descriptor MainKind.Feature HID_PD_PRESENTSTATUS = 16 := by
  refine ⟨?_, ?_, ?_, ?_, ?_, ?_⟩ <;> set_option maxRecDepth 100000 in decide

/-- C26 (the code breaks it): a state with FullyDischarged = 1 is reachable, and from any
state with FullyDischarged = 1 every sequence of `update_ups_state` steps ends in a state
with FullyDischarged = 1; FullyCharged, by contrast, is left by one AC-loss step from
every reachable state that has it (for a dwell below the largest tick count). -/
theorem fully_discharged_is_never_left (dwell : Nat) :
    (Reachable 60000 drainedState ∧ drainedState.UPS.FullyDischarged = true) ∧
    (∀ s s', s.UPS.FullyDischarged = true → Steps dwell s s' →
      s'.UPS.FullyDischarged = true) ∧
    (dwell + 1 < 4294967296 → ∀ s, Reachable dwell s → s.UPS.FullyCharged = true →
      ∃ s', Steps dwell s s' ∧ s'.UPS.FullyCharged = false) := by
  refine ⟨⟨?_, ?_⟩, ?_, ?_⟩
  · exact reachable_from 60000 70001 70001 44 _ (Reachable.step 70000 70001 Reachable.init)
  · set_option maxRecDepth 100000 in decide
  · intro s s' hf hsteps
    induction hsteps with
    | refl => exact hf
    | step t_check t_store _ ih => exact fully_discharged_step dwell t_check t_store _ ih
  · intro hdw s hs hf
    exact ⟨_, Steps.step (s.ac_timer + dwell + 1) 0 (Steps.refl s),
      fully_charged_exit dwell hdw s (reachable_consistent dwell s hs) hf⟩

/-- C27: for each string report (IDs 1, 2, 3, 31, 32) the descriptor declares the STRING
INDEX 2, 3, 1, 4, 5, the byte a Feature Get-Report returns is that index, and
`descriptor_str` has at these indices the entries DHG.UPS, 383503417, DINGHUGANG, Li-ion
and DHG. -/
theorem string_index_consistency (s : UpsState) (buffer : Buffer) :
    [HID_PD_IPRODUCT, HID_PD_SERIAL, HID_PD_MANUFACTURER, HID_PD_IDEVICECHEMISTRY,
      HID_PD_IOEMINFORMATION].map
        (fun id => (fieldsOf hid_report_descriptor MainKind.Feature id).map
          (fun f => f.string_index))
      = [[some 2], [some 3], [some 1], [some 4], [some 5]] ∧
    [HID_PD_IPRODUCT, HID_PD_SERIAL, HID_PD_MANUFACTURER, HID_PD_IDEVICECHEMISTRY,
      HID_PD_IOEMINFORMATION].map
        (fun id =>
          ((tud_hid_get_report_cb s id HID_REPORT_TYPE_FEATURE buffer 1).1,
           (tud_hid_get_report_cb s id HID_REPORT_TYPE_FEATURE buffer 1).2 0))
      = [(1, 2), (1, 3), (1, 1), (1, 4), (1, 5)] ∧
    [2, 3, 1, 4, 5].map descriptor_str.get?
      = ["DHG.UPS", "383503417", "DINGHUGANG", "Li-ion", "DHG"].map some ∧
    descriptor_str.length = 6 := by
  refine ⟨?_, rfl, rfl, rfl⟩
  set_option maxRecDepth 100000 in decide

/-! ## Get-Report as a read -/

/-- C28: Get-Report is a pure read: for every state, Report ID, report type and `reqlen`
the call leaves the power state as it was, and its returned length and payload depend
only on the state, the Report ID, the report type and `reqlen`: they are the same for any
two initial buffers, and equal arguments on equal states give equal results. -/
theorem get_report_pure_read (s : UpsState) (report_id : Nat)
    (report_type : hid_report_type_t) (buffer : Buffer) (reqlen : Nat) :
    (tud_hid_get_report_call s report_id report_type buffer reqlen).1 = s ∧
    (∀ other : Buffer,
      (tud_hid_get_report_cb s report_id report_type other reqlen).1
        = (tud_hid_get_report_cb s report_id report_type buffer reqlen).1 ∧
      payload (tud_hid_get_report_cb s report_id report_type other reqlen)
        = payload (tud_hid_get_report_cb s report_id report_type buffer reqlen)) ∧
    (∀ (t : UpsState) (id : Nat) (ty : hid_report_type_t) (b : Buffer) (n : Nat),
      t = s → id = report_id → ty = report_type → b = buffer → n = reqlen →
      tud_hid_get_report_call t id ty b n
        = tud_hid_get_report_call s report_id report_type buffer reqlen) := by
  refine ⟨rfl, ?_, ?_⟩
  · intro other
    refine ⟨rfl, ?_⟩
    unfold payload tud_hid_get_report_cb
    apply List.map_congr_left
    intro j hj
    apply storeAll_same
    rw [(run_fills s report_id report_type reqlen).2]
    exact hj
  · intro t id ty b n ht hid hty hb hn
    subst ht hid hty hb hn
    rfl

/-- C29 (as stated, it fails): in the start-up state with `warring_capacity_limit` set to
30 and `remaining_capacity_limit` set to 5, the Feature Get-Reports of IDs 15 and 17
return 20 and 10, not the stored fields. -/
theorem limit_reports_not_stored_fields :
    otherLimitsState.InRange ∧
    (tud_hid_get_report_cb otherLimitsState HID_PD_WARNCAPACITYLIMIT HID_REPORT_TYPE_FEATURE
      (fun _ => 0) 1).2 0 ≠ otherLimitsState.warring_capacity_limit ∧
    (tud_hid_get_report_cb otherLimitsState HID_PD_REMNCAPACITYLIMIT HID_REPORT_TYPE_FEATURE
      (fun _ => 0) 1).2 0 ≠ otherLimitsState.remaining_capacity_limit := by
  decide

/-- C29 (amended): for every power state the Feature Get-Report of ID 12 returns
`remaining_capacity` and that of ID 23 the low byte of `design_capacity` (the field itself
when it is below 256); those of IDs 15 and 17 return the constants 20 and 10, which are
the values of `warring_capacity_limit` and `remaining_capacity_limit` in every reachable
state, where ID 23 also returns `design_capacity` itself. -/
theorem one_byte_reports_payload (dwell : Nat) (s : UpsState) (buffer : Buffer) :
    (tud_hid_get_report_cb s HID_PD_REMAININGCAPACITY HID_REPORT_TYPE_FEATURE buffer 1).2 0
      = s.remaining_capacity % 256 ∧
    (s.remaining_capacity < 256 →
      (tud_hid_get_report_cb s HID_PD_REMAININGCAPACITY HID_REPORT_TYPE_FEATURE buffer 1).2 0
        = s.remaining_capacity) ∧
    (tud_hid_get_report_cb s HID_PD_DESIGNCAPACITY HID_REPORT_TYPE_FEATURE buffer 1).2 0
      = s.design_capacity % 256 ∧
    (s.design_capacity < 256 →
      (tud_hid_get_report_cb s HID_PD_DESIGNCAPACITY HID_REPORT_TYPE_FEATURE buffer 1).2 0
        = s.design_capacity) ∧
    (tud_hid_get_report_cb s HID_PD_WARNCAPACITYLIMIT HID_REPORT_TYPE_FEATURE buffer 1).2 0
      = 20 ∧
    (tud_hid_get_report_cb s HID_PD_REMNCAPACITYLIMIT HID_REPORT_TYPE_FEATURE buffer 1).2 0
      = 10 ∧
    (Reachable dwell s →
      (tud_hid_get_report_cb s HID_PD_WARNCAPACITYLIMIT HID_REPORT_TYPE_FEATURE buffer 1).2 0
        = s.warring_capacity_limit ∧
      (tud_hid_get_report_cb s HID_PD_REMNCAPACITYLIMIT HID_REPORT_TYPE_FEATURE buffer 1).2 0
        = s.remaining_capacity_limit ∧
      (tud_hid_get_report_cb s HID_PD_DESIGNCAPACITY HID_REPORT_TYPE_FEATURE buffer 1).2 0
        = s.design_capacity ∧
      (tud_hid_get_report_cb s HID_PD_REMAININGCAPACITY HID_REPORT_TYPE_FEATURE buffer 1).2 0
        = s.remaining_capacity) := by
  have h12 : (tud_hid_get_report_cb s HID_PD_REMAININGCAPACITY HID_REPORT_TYPE_FEATURE
      buffer 1).2 0 = s.remaining_capacity % 256 := rfl
  have h23 : (tud_hid_get_report_cb s HID_PD_DESIGNCAPACITY HID_REPORT_TYPE_FEATURE
      buffer 1).2 0 = s.design_capacity % 256 := rfl
  have h15 : (tud_hid_get_report_cb s HID_PD_WARNCAPACITYLIMIT HID_REPORT_TYPE_FEATURE
      buffer 1).2 0 = 20 := rfl
  have h17 : (tud_hid_get_report_cb s HID_PD_REMNCAPACITYLIMIT HID_REPORT_TYPE_FEATURE
      buffer 1).2 0 = 10 := rfl
  refine ⟨h12, fun h => ?_, h23, fun h => ?_, h15, h17, fun hre => ?_⟩
  · rw [h12]; omega
  · rw [h23]; omega
  · obtain ⟨_, _, _, _, hw, hl, _, _, hdc, _, _, _⟩ := reachable_constants dwell s hre
    have hcap := reachable_capacity dwell s hre
    refine ⟨by rw [h15, hw], by rw [h17, hl], ?_, ?_⟩
    · rw [h23, hdc]
    · rw [h12]; omega

/-! ## The simulation step: the AC toggle -/

/-- C30 (as stated, it fails): in the start-up state with a dwell of 60000 ticks, a step
whose two readings of the tick counter are 70000 (compared with `ac_timer`) and 70001
(stored) flips ACPresent and leaves `ac_timer` at 70001, not at the reading 70000 that
was compared. -/
theorem ac_timer_takes_second_reading :
    dwell_elapsed 60000 70000 initialState ∧
    (update_ups_state 60000 70000 70001 initialState).UPS.ACPresent
      ≠ initialState.UPS.ACPresent ∧
    (update_ups_state 60000 70000 70001 initialState).ac_timer ≠ 70000 := by
  decide

/-- C30 (amended): each `update_ups_state` step, given the reading `t_check` of the tick
counter and the stored `ac_timer`, flips ACPresent exactly when
`(t_check - ac_timer) mod 2^32` is strictly greater than the dwell, in which case
`ac_timer` becomes the reading `t_store` of the second call of `xTaskGetTickCount`
(`t_check` itself when the counter has not advanced in between); otherwise the transition
part leaves the whole state, so ACPresent, Charging, Discharging and `ac_timer`, as it
was; in both cases exactly one capacity tick follows. -/
theorem ac_toggle_rule (dwell t_check t_store : Nat) (s : UpsState) :
    (dwell_elapsed dwell t_check s ↔
      (t_check + 4294967296 - s.ac_timer) % 4294967296 > dwell) ∧
    (dwell_elapsed dwell t_check s →
      (ac_block dwell t_check t_store s).UPS.ACPresent = !s.UPS.ACPresent ∧
      (ac_block dwell t_check t_store s).ac_timer = t_store ∧
      (update_ups_state dwell t_check t_store s).UPS.ACPresent = !s.UPS.ACPresent ∧
      (update_ups_state dwell t_check t_store s).ac_timer = t_store) ∧
    (dwell_elapsed dwell t_check s →
      (update_ups_state dwell t_check t_check s).ac_timer = t_check) ∧
    (¬ dwell_elapsed dwell t_check s →
      ac_block dwell t_check t_store s = s ∧
      (update_ups_state dwell t_check t_store s).UPS.ACPresent = s.UPS.ACPresent ∧
      (update_ups_state dwell t_check t_store s).ac_timer = s.ac_timer) ∧
    update_ups_state dwell t_check t_store s
      = capacity_tick (ac_block dwell t_check t_store s) := by
  have hkeep : ∀ u : UpsState, (capacity_tick u).UPS.ACPresent = u.UPS.ACPresent ∧
      (capacity_tick u).ac_timer = u.ac_timer := by
    intro u
    unfold capacity_tick runtime_block capacity_block
    split_ifs <;> exact ⟨rfl, rfl⟩
  have hstep : ∀ t : Nat, update_ups_state dwell t_check t s
      = capacity_tick (ac_block dwell t_check t s) := fun _ => rfl
  have hflip : ∀ t : Nat, dwell_elapsed dwell t_check s →
      (ac_block dwell t_check t s).UPS.ACPresent = !s.UPS.ACPresent ∧
      (ac_block dwell t_check t s).ac_timer = t := by
    intro t hd
    unfold dwell_elapsed at hd
    unfold ac_block
    rw [if_pos hd]
    cases hA : s.UPS.ACPresent <;> simp
  refine ⟨Iff.rfl, ?_, ?_, ?_, rfl⟩
  · intro hd
    obtain ⟨h1, h2⟩ := hflip t_store hd
    refine ⟨h1, h2, ?_, ?_⟩
    · rw [hstep, (hkeep _).1, h1]
    · rw [hstep, (hkeep _).2, h2]
  · intro hd
    rw [hstep, (hkeep _).2, (hflip t_check hd).2]
  · intro hn
    have hs : ac_block dwell t_check t_store s = s := by
      unfold dwell_elapsed at hn
      unfold ac_block
      rw [if_neg hn]
    refine ⟨hs, ?_, ?_⟩
    · rw [hstep, (hkeep _).1, hs]
    · rw [hstep, (hkeep _).2, hs]

/-! ## Bounds, frames and the item stream: auxiliary facts -/

theorem set_reads_in_bounds (report_id : Nat) (report_type : hid_report_type_t)
    (buffer : Buffer) (bufsize : Nat) :
    ∀ i ∈ (tud_hid_set_report_run report_id report_type buffer bufsize).reads,
      1 ≤ i ∧ i < bufsize := by
  unfold tud_hid_set_report_run
  split_ifs <;> simp <;> omega

theorem flags_frame_step (dwell t_check t_store : Nat) (s : UpsState) :
    (update_ups_state dwell t_check t_store s).UPS.BatteryPresent = s.UPS.BatteryPresent ∧
    (update_ups_state dwell t_check t_store s).UPS.BelowRemainingCapacityLimit
      = s.UPS.BelowRemainingCapacityLimit ∧
    (update_ups_state dwell t_check t_store s).UPS.RemainingTimeLimitExpired
      = s.UPS.RemainingTimeLimitExpired ∧
    (update_ups_state dwell t_check t_store s).UPS.NeedReplacement = s.UPS.NeedReplacement ∧
    (update_ups_state dwell t_check t_store s).UPS.VoltageNotRegulated
      = s.UPS.VoltageNotRegulated ∧
    (update_ups_state dwell t_check t_store s).UPS.ShutdownRequested
      = s.UPS.ShutdownRequested ∧
    (update_ups_state dwell t_check t_store s).UPS.ShutdownImminent
      = s.UPS.ShutdownImminent ∧
    (update_ups_state dwell t_check t_store s).UPS.CommunicationLost
      = s.UPS.CommunicationLost ∧
    (update_ups_state dwell t_check t_store s).UPS.Overload = s.UPS.Overload ∧
    (update_ups_state dwell t_check t_store s).UPS.unused1 = s.UPS.unused1 ∧
    (update_ups_state dwell t_check t_store s).UPS.unused2 = s.UPS.unused2 := by
  unfold update_ups_state runtime_block capacity_block ac_block
  split_ifs <;> exact ⟨rfl, rfl, rfl, rfl, rfl, rfl, rfl, rfl, rfl, rfl, rfl⟩

theorem members_but_bit9 (ps : PresentStatus) (b : Bool) (i : Nat) (h9 : i ≠ 9) :
    ({ ps with FullyDischarged := b } : PresentStatus).members.getD i false
      = ps.members.getD i false := by
  by_cases hi : i < 16
  · interval_cases i <;> first | rfl | exact absurd rfl h9
  · have h16 : 16 ≤ i := Nat.le_of_not_lt hi
    rw [List.getD_eq_default _ _ (by simpa [PresentStatus.members] using h16),
      List.getD_eq_default _ _ (by simpa [PresentStatus.members] using h16)]

theorem run_not_feature (s : UpsState) (report_id : Nat) (report_type : hid_report_type_t)
    (reqlen : Nat) (h : report_type ≠ HID_REPORT_TYPE_FEATURE) :
    tud_hid_get_report_run s report_id report_type reqlen = ⟨0, []⟩ := by
  unfold tud_hid_get_report_run
  rw [if_pos h]

theorem first_store_at_zero (s : UpsState) (report_id : Nat)
    (report_type : hid_report_type_t) (reqlen : Nat) :
    ∀ p ∈ (tud_hid_get_report_run s report_id report_type reqlen).stores.head?, p.1 = 0 := by
  intro p hp
  have hfill := (run_fills s report_id report_type reqlen).2
  cases hst : (tud_hid_get_report_run s report_id report_type reqlen).stores with
  | nil => rw [hst] at hp; simp at hp
  | cons q rest =>
    rw [hst] at hp hfill
    simp only [List.head?_cons, Option.mem_def, Option.some.injEq] at hp
    subst hp
    cases hret : (tud_hid_get_report_run s report_id report_type reqlen).ret with
    | zero => rw [hret] at hfill; simp at hfill
    | succ n =>
      rw [hret, List.range_succ_eq_map] at hfill
      simp only [List.map_cons, List.cons.injEq] at hfill
      exact hfill.1

/-! ## Set-Report: reads and effect -/

/-- C31: every buffer read in `tud_hid_set_report_cb` is in bounds: whatever the Report
ID, the report type, the buffer and `bufsize`, each offset the handler reads is `k + 1`
for a data index `k` and is below `bufsize`; `bufsize - 1` is computed only past the guard
`bufsize < 1`, so never for `bufsize = 0`, and then it does not wrap. -/
theorem set_report_reads_in_bounds (report_id : Nat) (report_type : hid_report_type_t)
    (s : UpsState) (buffer : Buffer) (bufsize : Nat) :
    (∀ i ∈ (tud_hid_set_report_cb s report_id report_type buffer bufsize).2.reads,
      1 ≤ i ∧ i < bufsize) ∧
    (∀ k, data_at buffer k = buffer (k + 1)) ∧
    (bufsize = 0 →
      set_report_data_size report_type bufsize = none ∧
      (tud_hid_set_report_cb s report_id report_type buffer bufsize).2 = ⟨[], []⟩) ∧
    (∀ d, bufsize < 65536 → set_report_data_size report_type bufsize = some d →
      d + 1 = bufsize) := by
  refine ⟨set_reads_in_bounds report_id report_type buffer bufsize, fun _ => rfl, ?_, ?_⟩
  · intro h0
    subst h0
    constructor
    · unfold set_report_data_size; simp
    · unfold tud_hid_set_report_cb tud_hid_set_report_run; simp
  · intro d hb hd
    unfold set_report_data_size at hd
    split_ifs at hd with hg
    simp only [Option.some.injEq] at hd
    push_neg at hg
    omega

/-- C32: `tud_hid_set_report_cb` never mutates the power state: for every Report ID, every
report type, every buffer and every length, the state after the call is the state before
it, in every flag and every numeric field. -/
theorem set_report_never_mutates (s : UpsState) (report_id : Nat)
    (report_type : hid_report_type_t) (buffer : Buffer) (bufsize : Nat) :
    (tud_hid_set_report_cb s report_id report_type buffer bufsize).1 = s ∧
    (tud_hid_set_report_cb s report_id report_type buffer bufsize).1.UPS = s.UPS ∧
    (tud_hid_set_report_cb s report_id report_type buffer bufsize).1.warring_capacity_limit
      = s.warring_capacity_limit ∧
    (tud_hid_set_report_cb s report_id report_type buffer bufsize).1.remaining_capacity_limit
      = s.remaining_capacity_limit ∧
    (tud_hid_set_report_cb s report_id report_type buffer bufsize).1.delay_before_shutdown
      = s.delay_before_shutdown ∧
    (tud_hid_set_report_cb s report_id report_type buffer bufsize).1.delay_before_reboot
      = s.delay_before_reboot :=
  ⟨rfl, rfl, rfl, rfl, rfl, rfl⟩

/-! ## Get-Report: report types and offsets -/

/-- C33: only Feature reports are served: for every report type other than
`HID_REPORT_TYPE_FEATURE`, every Report ID, every `reqlen` and every state,
`tud_hid_get_report_cb` returns 0, makes no store and leaves the buffer as it was. -/
theorem only_feature_reports_served (s : UpsState) (report_id : Nat)
    (report_type : hid_report_type_t) (buffer : Buffer) (reqlen : Nat)
    (h : report_type ≠ HID_REPORT_TYPE_FEATURE) :
    tud_hid_get_report_cb s report_id report_type buffer reqlen = (0, buffer) ∧
    (tud_hid_get_report_run s report_id report_type reqlen).stores = [] := by
  unfold tud_hid_get_report_cb
  rw [run_not_feature s report_id report_type reqlen h]
  exact ⟨rfl, rfl⟩

/-- Witness of C33: an Input request for Report ID 12 with room for 64 bytes. -/
theorem only_feature_reports_served_witness :
    HID_REPORT_TYPE_INPUT ≠ HID_REPORT_TYPE_FEATURE ∧
    tud_hid_get_report_cb initialState HID_PD_REMAININGCAPACITY HID_REPORT_TYPE_INPUT
      (fun _ => 7) 64 = (0, fun _ => 7) :=
  ⟨by decide,
   (only_feature_reports_served initialState HID_PD_REMAININGCAPACITY HID_REPORT_TYPE_INPUT
      (fun _ => 7) 64 (by decide)).1⟩

/-- C37 (as stated, it fails): Get-Report places the first payload byte at buffer offset
0, while Set-Report takes the first payload byte, `data[0]`, from buffer offset 1 (on the
buffer that holds `j` at offset `j`, `data[0]` is 1). -/
theorem payload_offsets_differ :
    (tud_hid_get_report_run initialState HID_PD_IPRODUCT HID_REPORT_TYPE_FEATURE 1).stores.map
      Prod.fst = [0] ∧
    data_at (fun j => j) 0 = 1 ∧
    (tud_hid_get_report_run initialState HID_PD_IPRODUCT HID_REPORT_TYPE_FEATURE
      1).stores.head?.map Prod.fst ≠ some (data_at (fun j => j) 0) := by
  decide

/-- C37 (amended): Get-Report and Set-Report use different conventions for the leading
Report-ID byte: `tud_hid_get_report_cb` places the first payload byte at buffer offset 0
(its buffer holds no Report-ID byte), and `tud_hid_set_report_cb` takes payload byte `k`
from buffer offset `k + 1` (offset 0 is left to the Report-ID byte), so every offset it
reads is at least 1. -/
theorem payload_offset_conventions (s : UpsState) (report_id : Nat)
    (report_type : hid_report_type_t) (buffer : Buffer) (reqlen bufsize : Nat) :
    (∀ p ∈ (tud_hid_get_report_run s report_id report_type reqlen).stores.head?, p.1 = 0) ∧
    (∀ k, data_at buffer k = buffer (k + 1)) ∧
    data_at buffer 0 = buffer 1 ∧
    (∀ i ∈ (tud_hid_set_report_cb s report_id report_type buffer bufsize).2.reads, 1 ≤ i) :=
  ⟨first_store_at_zero s report_id report_type reqlen, fun _ => rfl, rfl,
   fun i hi => (set_reads_in_bounds report_id report_type buffer bufsize i hi).1⟩

/-! ## The simulation step: FullyDischarged, frame, run time -/

/-- C34: in a capacity tick that decrements `remaining_capacity`, FullyDischarged becomes
1 exactly when the new capacity is at most 15 (the assigned 15 truncates to 1 in the
one-bit field) and is otherwise left as it was; the assignment changes bit 9 of the status
word only; and neither the other branches of the capacity block nor the AC block nor the
run-time block write FullyDischarged. -/
theorem fully_discharged_rule (dwell t_check t_store : Nat) (s : UpsState)
    (hr : s.remaining_capacity < 256) :
    (¬ (s.UPS.Charging = true ∧ s.remaining_capacity < 100) →
      s.UPS.Discharging = true ∧ s.remaining_capacity > 0 →
      (capacity_block s).remaining_capacity + 1 = s.remaining_capacity ∧
      ((capacity_block s).remaining_capacity ≤ 15 →
        (capacity_block s).UPS
          = { s.UPS with FullyCharged := false, FullyDischarged := true }) ∧
      (¬ (capacity_block s).remaining_capacity ≤ 15 →
        (capacity_block s).UPS = { s.UPS with FullyCharged := false })) ∧
    one_bit 15 = true ∧
    (∀ (ps : PresentStatus) (i : Nat), i ≠ 9 →
      ({ ps with FullyDischarged := one_bit 15 } : PresentStatus).members.getD i false
        = ps.members.getD i false) ∧
    (∀ (ps : PresentStatus) (i : Nat), i ≠ 9 →
      (flagSum { ps with FullyDischarged := one_bit 15 }).testBit i
        = (flagSum ps).testBit i) ∧
    (∀ ps : PresentStatus,
      (flagSum { ps with FullyDischarged := one_bit 15 }).testBit 9 = true) ∧
    (¬ (¬ (s.UPS.Charging = true ∧ s.remaining_capacity < 100) ∧
        (s.UPS.Discharging = true ∧ s.remaining_capacity > 0)) →
      (capacity_block s).UPS.FullyDischarged = s.UPS.FullyDischarged) ∧
    (ac_block dwell t_check t_store s).UPS.FullyDischarged = s.UPS.FullyDischarged ∧
    (runtime_block s).UPS.FullyDischarged = s.UPS.FullyDischarged := by
  refine ⟨?_, by decide, fun ps i h9 => members_but_bit9 ps _ i h9, ?_, ?_, ?_, ?_, rfl⟩
  · intro hn hdc
    unfold capacity_block
    rw [if_neg hn, if_pos hdc]
    split_ifs with h15
    · refine ⟨?_, fun _ => rfl, fun hc => absurd h15 hc⟩
      show (s.remaining_capacity + 255) % 256 + 1 = s.remaining_capacity
      omega
    · refine ⟨?_, fun hc => absurd hc h15, fun _ => rfl⟩
      show (s.remaining_capacity + 255) % 256 + 1 = s.remaining_capacity
      omega
  · intro ps i h9
    rw [flagSum_eq, flagSum_eq, packBits_testBit, packBits_testBit]
    exact members_but_bit9 ps _ i h9
  · intro ps
    rw [flagSum_eq, packBits_testBit]
    rfl
  · intro hno
    unfold capacity_block
    split_ifs with h1 h2 h3 h4
    · rfl
    · rfl
    · exact absurd ⟨h1, h3⟩ hno
    · exact absurd ⟨h1, h3⟩ hno
    · rfl
  · unfold ac_block
    split_ifs <;> rfl

/-- Witness of C34: the decrement from 16 to 15 sets FullyDischarged. -/
theorem fully_discharged_rule_witness :
    ({ emptyBatteryState with
       remaining_capacity := 16,
       UPS := { initialState.UPS with Charging := false, Discharging := true,
                                      ACPresent := false } } : UpsState).remaining_capacity
      < 256 ∧
    (capacity_block
      { emptyBatteryState with
        remaining_capacity := 16,
        UPS := { initialState.UPS with Charging := false, Discharging := true,
                                       ACPresent := false } }).UPS.FullyDischarged = true :=
  ⟨by decide,
   by
    have h := (fully_discharged_rule 60000 0 0
      { emptyBatteryState with
        remaining_capacity := 16,
        UPS := { initialState.UPS with Charging := false, Discharging := true,
                                       ACPresent := false } } (by decide)).1
      (by decide) (by decide)
    rw [h.2.1 (by decide)]⟩

/-- C35: `update_ups_state` modifies only ACPresent, Charging, Discharging, FullyCharged,
FullyDischarged, `remaining_capacity`, `runtime_to_empty` and `ac_timer`: for every state
and all readings of the tick counter, the nine other named flags, the two reserved bits,
the voltages, the capacity limits, the delays, the manufacture date, the average times
and the two capacity constants are unchanged. -/
theorem update_frame (dwell t_check t_store : Nat) (s : UpsState) :
    ((update_ups_state dwell t_check t_store s).UPS.BatteryPresent = s.UPS.BatteryPresent ∧
     (update_ups_state dwell t_check t_store s).UPS.BelowRemainingCapacityLimit
       = s.UPS.BelowRemainingCapacityLimit ∧
     (update_ups_state dwell t_check t_store s).UPS.RemainingTimeLimitExpired
       = s.UPS.RemainingTimeLimitExpired ∧
     (update_ups_state dwell t_check t_store s).UPS.NeedReplacement
       = s.UPS.NeedReplacement ∧
     (update_ups_state dwell t_check t_store s).UPS.VoltageNotRegulated
       = s.UPS.VoltageNotRegulated ∧
     (update_ups_state dwell t_check t_store s).UPS.ShutdownRequested
       = s.UPS.ShutdownRequested ∧
     (update_ups_state dwell t_check t_store s).UPS.ShutdownImminent
       = s.UPS.ShutdownImminent ∧
     (update_ups_state dwell t_check t_store s).UPS.CommunicationLost
       = s.UPS.CommunicationLost ∧
     (update_ups_state dwell t_check t_store s).UPS.Overload = s.UPS.Overload ∧
     (update_ups_state dwell t_check t_store s).UPS.unused1 = s.UPS.unused1 ∧
     (update_ups_state dwell t_check t_store s).UPS.unused2 = s.UPS.unused2) ∧
    ((update_ups_state dwell t_check t_store s).manufacture_date = s.manufacture_date ∧
     (update_ups_state dwell t_check t_store s).config_voltage = s.config_voltage ∧
     (update_ups_state dwell t_check t_store s).voltage = s.voltage ∧
     (update_ups_state dwell t_check t_store s).full_charge_capacity
       = s.full_charge_capacity ∧
     (update_ups_state dwell t_check t_store s).warring_capacity_limit
       = s.warring_capacity_limit ∧
     (update_ups_state dwell t_check t_store s).remaining_capacity_limit
       = s.remaining_capacity_limit ∧
     (update_ups_state dwell t_check t_store s).delay_before_shutdown
       = s.delay_before_shutdown ∧
     (update_ups_state dwell t_check t_store s).delay_before_reboot
       = s.delay_before_reboot ∧
     (update_ups_state dwell t_check t_store s).design_capacity = s.design_capacity ∧
     (update_ups_state dwell t_check t_store s).avg_time_to_full = s.avg_time_to_full ∧
     (update_ups_state dwell t_check t_store s).avg_time_to_empty = s.avg_time_to_empty) :=
  ⟨flags_frame_step dwell t_check t_store s, frame_step dwell t_check t_store s⟩

/-- C36 (as stated, it fails): in the start-up state, which is reachable,
`runtime_to_empty` is 3600 while 72 times `remaining_capacity` is 4320. -/
theorem startup_runtime_inconsistent :
    initialState.runtime_to_empty = 3600 ∧ 72 * initialState.remaining_capacity = 4320 ∧
    initialState.runtime_to_empty ≠ 72 * initialState.remaining_capacity := by
  decide

/-- C36 (amended): the derived run time is consistent with the capacity after every
`update_ups_state` step, so in every reachable state other than the start-up state:
`runtime_to_empty`, which ID 13 reports in little-endian order, equals 72 times
`remaining_capacity`, which ID 12 reports; the start-up state has 3600 against 4320. -/
theorem runtime_consistent_after_step (dwell : Nat) (s : UpsState) (h : Reachable dwell s) :
    (s = initialState ∨ s.runtime_to_empty = 72 * s.remaining_capacity) ∧
    (∀ t_check t_store (buffer : Buffer),
      (update_ups_state dwell t_check t_store s).runtime_to_empty
        = 72 * (update_ups_state dwell t_check t_store s).remaining_capacity ∧
      LittleEndian16
        (tud_hid_get_report_cb (update_ups_state dwell t_check t_store s)
          HID_PD_RUNTIMETOEMPTY HID_REPORT_TYPE_FEATURE buffer 2)
        (72 * (tud_hid_get_report_cb (update_ups_state dwell t_check t_store s)
          HID_PD_REMAININGCAPACITY HID_REPORT_TYPE_FEATURE buffer 1).2 0)) := by
  have hpost : ∀ (u : UpsState) (t_check t_store : Nat), Reachable dwell u →
      (update_ups_state dwell t_check t_store u).runtime_to_empty
        = 72 * (update_ups_state dwell t_check t_store u).remaining_capacity := by
    intro u t_check t_store hu
    have hcap := reachable_capacity dwell _ (Reachable.step t_check t_store hu)
    rw [runtime_step dwell t_check t_store u]
    omega
  constructor
  · cases h with
    | init => exact Or.inl rfl
    | step t_check t_store hprev => exact Or.inr (hpost _ t_check t_store hprev)
  · intro t_check t_store buffer
    have hrt := hpost s t_check t_store h
    have hcap := reachable_capacity dwell _ (Reachable.step t_check t_store h)
    refine ⟨hrt, ?_⟩
    have h12 : (tud_hid_get_report_cb (update_ups_state dwell t_check t_store s)
        HID_PD_REMAININGCAPACITY HID_REPORT_TYPE_FEATURE buffer 1).2 0
        = (update_ups_state dwell t_check t_store s).remaining_capacity % 256 := rfl
    have hval : 72 * (tud_hid_get_report_cb (update_ups_state dwell t_check t_store s)
        HID_PD_REMAININGCAPACITY HID_REPORT_TYPE_FEATURE buffer 1).2 0
        = (update_ups_state dwell t_check t_store s).runtime_to_empty := by
      rw [h12, hrt]; omega
    rw [hval]
    exact littleEndian16_of_run _ _ buffer 2 _ rfl (Nat.le_refl 2) (by rw [hrt]; omega)

/-- Witness of the amended C36: the state after one AC-loss step from start-up. -/
theorem runtime_consistent_after_step_witness :
    Reachable 60000 (update_ups_state 60000 70000 70001 initialState) ∧
    (update_ups_state 60000 70001 70001
      (update_ups_state 60000 70000 70001 initialState)).runtime_to_empty
      = 72 * (update_ups_state 60000 70001 70001
          (update_ups_state 60000 70000 70001 initialState)).remaining_capacity :=
  ⟨Reachable.step 70000 70001 Reachable.init,
   ((runtime_consistent_after_step 60000 _ (Reachable.step 70000 70001 Reachable.init)).2
      70001 70001 (fun _ => 0)).1⟩

/-! ## The descriptor as an item stream -/

/-- C38: `hid_report_descriptor` is a well-formed HID item stream: read as short items
with 0, 1, 2 or 4 data bytes it is consumed exactly to its last byte (400 bytes, no item
cut short, no item of the reserved type), every End Collection closes an open Collection,
so the depth never goes below 0, the depth is 0 at the end, and every Input or Feature
main item has a Report ID in effect. -/
theorem descriptor_well_formed :
    hid_report_descriptor.length = 400 ∧
    (shortItems hid_report_descriptor).isSome = true ∧
    ((shortItems hid_report_descriptor).map
        fun items => (items.map fun it => 1 + it.data.length).sum) = some 400 ∧
    ((shortItems hid_report_descriptor).map
        fun items => items.all fun it =>
          decide (it.data.length ∈ [0, 1, 2, 4]) && decide (it.bType ≠ 3)) = some true ∧
    ((parseDescriptor hid_report_descriptor).map fun p => (p.depth, p.balanced))
      = some (0, true) ∧
    ((reportFields hid_report_descriptor).all fun f =>
        f.report_id.isSome && decide (f.kind ≠ MainKind.Output)) = true ∧
    (reportFields hid_report_descriptor).length = 60 := by
  refine ⟨?_, ?_, ?_, ?_, ?_, ?_, ?_⟩ <;> set_option maxRecDepth 100000 in decide

end MiniUPS
